import Mathlib

/-!
Verification of the childEduServer dialogue-orchestration engine.

Python strings are modelled as `List Char`, Python runtime values as `PyVal`,
and raised exceptions as `Except PyErr`.  Every module-level definition below
is a shallow embedding of the correspondingly named function of the source
tree (`src/hub/dialogue_manager.py`, `src/hub/question_validator.py`,
`src/modules/...`); external generation-service calls are passed in as
oracle arguments of type `Except PyErr ...`.
-/

set_option autoImplicit false
set_option maxRecDepth 8000

/-- Shorthand: the character list of a string literal. -/
def toL (s : String) : List Char := s.toList

/-- Double-quote character. -/
def qChar : Char := Char.ofNat 34

/-- Opening curly brace character. -/
def lbChar : Char := Char.ofNat 123

/-- Closing curly brace character. -/
def rbChar : Char := Char.ofNat 125

/-- Backslash character. -/
def bsChar : Char := Char.ofNat 92

/-- Backtick character. -/
def btChar : Char := Char.ofNat 96

namespace PyStr

/-- `s.startswith(pre)` on character lists. -/
def startswith : List Char → List Char → Bool
  | [], _ => true
  | _ :: _, [] => false
  | p :: ps, c :: cs => p == c && startswith ps cs

/-- Index of the leftmost occurrence of `sep` in `s` (`s.find(sep)` when found). -/
def findIdx (sep : List Char) : List Char → Option Nat
  | [] => if sep.isEmpty then some 0 else none
  | s@(_ :: cs) =>
    if startswith sep s then some 0
    else (findIdx sep cs).map (· + 1)

/-- `sep in s` (Python substring containment). -/
def containsSub (sep s : List Char) : Bool := (findIdx sep s).isSome

/-- Fuelled worker for `split`: repeatedly cut at the leftmost occurrence. -/
def splitFuel (sep : List Char) : Nat → List Char → List (List Char)
  | 0, s => [s]
  | n + 1, s =>
    match findIdx sep s with
    | none => [s]
    | some i => s.take i :: splitFuel sep n (s.drop (i + sep.length))

/-- `s.split(sep)` for a non-empty separator (Python `str.split`). -/
def split (sep s : List Char) : List (List Char) := splitFuel sep (s.length + 1) s

/-- `s.replace(pat, rep)` (Python `str.replace`, leftmost non-overlapping). -/
def replace (pat rep s : List Char) : List Char := List.intercalate rep (split pat s)

/-- The whitespace set of Python `str.strip()` restricted to the characters
that can reach the embedded code paths (ASCII whitespace). -/
def pyIsSpace (c : Char) : Bool :=
  c == ' ' || c == '\t' || c == '\n' || c == '\r' ||
  c == Char.ofNat 11 || c == Char.ofNat 12

/-- `s.strip()`. -/
def strip (s : List Char) : List Char :=
  ((s.dropWhile pyIsSpace).reverse.dropWhile pyIsSpace).reverse

/-- ASCII lower-casing, the effect of Python `str.lower()` on the ASCII
values that the embedded code compares against. -/
def lowerChar (c : Char) : Char :=
  if 'A' ≤ c && c ≤ 'Z' then Char.ofNat (c.toNat + 32) else c

/-- `s.lower()`. -/
def lower (s : List Char) : List Char := s.map lowerChar

/-- ASCII upper-casing (`str.upper()` on the values compared by the code). -/
def upperChar (c : Char) : Char :=
  if 'a' ≤ c && c ≤ 'z' then Char.ofNat (c.toNat - 32) else c

/-- `s.upper()`. -/
def upper (s : List Char) : List Char := s.map upperChar

/-- Python `str.isalpha()` on the character ranges reaching the embedded
code: ASCII letters and CJK unified ideographs. -/
def pyIsAlpha (c : Char) : Bool :=
  ('a' ≤ c && c ≤ 'z') || ('A' ≤ c && c ≤ 'Z') ||
  (0x4E00 ≤ c.toNat && c.toNat ≤ 0x9FFF)

end PyStr

/-- Python exceptions raised by the embedded code. -/
inductive PyErr where
  | valueError (msg : List Char)
  | keyError (msg : List Char)
  | attributeError (msg : List Char)
  | typeError (msg : List Char)
  | indexError (msg : List Char)
  | validationError (msg : List Char)
  | feedbackAnalysisError (msg : List Char)
  | jsonDecodeError (msg : List Char)
  deriving DecidableEq, Repr

/-- Python runtime values (the subset produced by `json.loads` plus the
tuples and dictionaries the modules build). -/
inductive PyVal where
  | none
  | bool (b : Bool)
  | int (n : Int)
  | float (q : Rat)
  | str (s : List Char)
  | list (xs : List PyVal)
  | tuple2 (a b : PyVal)
  | dict (entries : List (List Char × PyVal))
  deriving Inhabited

mutual

/-- Structural equality test on `PyVal` (Python `==` on these values). -/
def PyVal.eqb : PyVal → PyVal → Bool
  | .none, .none => true
  | .bool a, .bool b => a == b
  | .int a, .int b => a == b
  | .float a, .float b => a == b
  | .str a, .str b => a == b
  | .list a, .list b => PyVal.eqbList a b
  | .tuple2 a b, .tuple2 c d => PyVal.eqb a c && PyVal.eqb b d
  | .dict a, .dict b => PyVal.eqbEntries a b
  | _, _ => false

/-- Elementwise equality on value lists. -/
def PyVal.eqbList : List PyVal → List PyVal → Bool
  | [], [] => true
  | a :: as, b :: bs => PyVal.eqb a b && PyVal.eqbList as bs
  | _, _ => false

/-- Elementwise equality on dictionary entry lists. -/
def PyVal.eqbEntries : List (List Char × PyVal) → List (List Char × PyVal) → Bool
  | [], [] => true
  | (k, v) :: as, (k', v') :: bs => k == k' && PyVal.eqb v v' && PyVal.eqbEntries as bs
  | _, _ => false

end

namespace PyVal

/-- Python truthiness (`bool(v)`) for the embedded value set. -/
def truthy : PyVal → Bool
  | .none => false
  | .bool b => b
  | .int n => n != 0
  | .float q => q != 0
  | .str s => !s.isEmpty
  | .list xs => !xs.isEmpty
  | .tuple2 _ _ => true
  | .dict es => !es.isEmpty

/-- Association-list lookup used by the dictionary operations. -/
def lookup (k : List Char) : List (List Char × PyVal) → Option PyVal
  | [] => Option.none
  | (k', v) :: es => if k' == k then some v else lookup k es

/-- `d[k] = v` on a dictionary entry list: overwrite in place, else append
(Python dictionaries keep the original insertion position). -/
def setItem (es : List (List Char × PyVal)) (k : List Char) (v : PyVal) :
    List (List Char × PyVal) :=
  match es with
  | [] => [(k, v)]
  | (k', v') :: rest =>
    if k' == k then (k', v) :: rest else (k', v') :: setItem rest k v

/-- `v.get(k, d)`: succeeds only on dictionaries, raising `AttributeError`
otherwise (the Python `.get` attribute exists only on `dict`). -/
def get (v : PyVal) (k : List Char) (d : PyVal) : Except PyErr PyVal :=
  match v with
  | .dict es => .ok ((lookup k es).getD d)
  | _ => .error (.attributeError (toL "object has no attribute 'get'"))

/-- `v[k]` subscription on dictionaries: `KeyError` when the key is absent,
`TypeError` when the value is not subscriptable by a string. -/
def index (v : PyVal) (k : List Char) : Except PyErr PyVal :=
  match v with
  | .dict es =>
    match lookup k es with
    | some w => .ok w
    | Option.none => .error (.keyError k)
  | _ => .error (.typeError (toL "object is not subscriptable"))

/-- `v + t` for a string right operand: concatenation on strings, a
`TypeError` on every other left operand. -/
def addStr (v : PyVal) (t : List Char) : Except PyErr PyVal :=
  match v with
  | .str s => .ok (.str (s ++ t))
  | _ => .error (.typeError (toL "can only concatenate str"))

/-- `v.lower()`: defined on strings only. -/
def lowerVal (v : PyVal) : Except PyErr (List Char) :=
  match v with
  | .str s => .ok (PyStr.lower s)
  | _ => .error (.attributeError (toL "object has no attribute 'lower'"))

end PyVal

namespace Json

/-- JSON whitespace (`json.loads` skips exactly space, tab, LF, CR). -/
def isJsonWs (c : Char) : Bool :=
  c == ' ' || c == '\t' || c == '\n' || c == '\r'

/-- Skip leading JSON whitespace. -/
def skipWs (s : List Char) : List Char := s.dropWhile isJsonWs

/-- Hex digit value. -/
def hexVal (c : Char) : Option Nat :=
  let n := c.toNat
  if 48 ≤ n && n ≤ 57 then some (n - 48)
  else if 97 ≤ n && n ≤ 102 then some (n - 87)
  else if 65 ≤ n && n ≤ 70 then some (n - 55)
  else Option.none

/-- Parse the body of a JSON string after the opening quote, handling the
escape sequences accepted by `json.loads` and rejecting raw control
characters (strict mode). -/
def pStrBody : Nat → List Char → Except (List Char) (List Char × List Char)
  | 0, _ => .error (toL "fuel")
  | _ + 1, [] => .error (toL "Unterminated string")
  | n + 1, c :: cs =>
    if c == qChar then .ok ([], cs)
    else if c == bsChar then
      match cs with
      | [] => .error (toL "Unterminated string")
      | e :: cs' =>
        if e == qChar || e == bsChar || e == '/' then
          (pStrBody n cs').map (fun (r, rest) => (e :: r, rest))
        else if e == 'b' then (pStrBody n cs').map (fun (r, rest) => (Char.ofNat 8 :: r, rest))
        else if e == 'f' then (pStrBody n cs').map (fun (r, rest) => (Char.ofNat 12 :: r, rest))
        else if e == 'n' then (pStrBody n cs').map (fun (r, rest) => ('\n' :: r, rest))
        else if e == 'r' then (pStrBody n cs').map (fun (r, rest) => ('\r' :: r, rest))
        else if e == 't' then (pStrBody n cs').map (fun (r, rest) => ('\t' :: r, rest))
        else if e == 'u' then
          match cs' with
          | h1 :: h2 :: h3 :: h4 :: cs'' =>
            match hexVal h1, hexVal h2, hexVal h3, hexVal h4 with
            | some a, some b, some c3, some d =>
              let code := ((a * 16 + b) * 16 + c3) * 16 + d
              if 0xD800 ≤ code && code ≤ 0xDFFF then .error (toL "surrogate escape unsupported")
              else (pStrBody n cs'').map (fun (r, rest) => (Char.ofNat code :: r, rest))
            | _, _, _, _ => .error (toL "Invalid \\uXXXX escape")
          | _ => .error (toL "Invalid \\uXXXX escape")
        else .error (toL "Invalid \\escape")
    else if c.toNat < 32 then .error (toL "Invalid control character")
    else (pStrBody n cs).map (fun (r, rest) => (c :: r, rest))

/-- Digits-to-`Nat` accumulator. -/
def digitsToNat (ds : List Char) : Nat :=
  ds.foldl (fun acc c => 10 * acc + (c.toNat - 48)) 0

/-- Parse a JSON number per the `json` module grammar
`-?(0|[1-9][0-9]*)(\.[0-9]+)?([eE][+-]?[0-9]+)?`; yields `PyVal.int` when
neither fraction nor exponent is present, `PyVal.float` otherwise. -/
def pNum (s : List Char) : Except (List Char) (PyVal × List Char) :=
  let (neg, s1) := match s with
    | '-' :: rest => (true, rest)
    | _ => (false, s)
  match s1 with
  | [] => .error (toL "Expecting value")
  | d :: _ =>
    if !d.isDigit then .error (toL "Expecting value")
    else
      let intDigits := if d == '0' then [d] else s1.takeWhile Char.isDigit
      let s2 := s1.drop intDigits.length
      let (fracDigits, s3) := match s2 with
        | '.' :: rest =>
          let fd := rest.takeWhile Char.isDigit
          (fd, rest.drop fd.length)
        | _ => ([], s2)
      if s2 ≠ [] && s2.head? = some '.' && fracDigits = [] then .error (toL "Expecting digits after point")
      else
        let (hasExp, expNeg, expDigits, s4) := match s3 with
          | e :: rest =>
            if e == 'e' || e == 'E' then
              match rest with
              | '+' :: r2 => (true, false, r2.takeWhile Char.isDigit, r2.drop (r2.takeWhile Char.isDigit).length)
              | '-' :: r2 => (true, true, r2.takeWhile Char.isDigit, r2.drop (r2.takeWhile Char.isDigit).length)
              | r2 => (true, false, r2.takeWhile Char.isDigit, r2.drop (r2.takeWhile Char.isDigit).length)
            else (false, false, [], s3)
          | [] => (false, false, [], s3)
        if hasExp && expDigits = [] then .error (toL "Expecting digits in exponent")
        else
          let iv : Int := if neg then -(digitsToNat intDigits : Int) else (digitsToNat intDigits : Int)
          if fracDigits = [] && !hasExp then .ok (.int iv, s3)
          else
            let mantissa : Nat := digitsToNat (intDigits ++ fracDigits)
            let e := digitsToNat expDigits
            let num : Int :=
              (if neg then -(mantissa : Int) else (mantissa : Int)) *
                (if hasExp && !expNeg then ((10 : Nat) ^ e : Nat) else 1)
            let den : Nat :=
              10 ^ fracDigits.length * (if hasExp && expNeg then 10 ^ e else 1)
            .ok (.float (mkRat num den), s4)

end Json

namespace Json

mutual

/-- Parse one JSON value (fuelled recursive-descent core of `json.loads`). -/
def pVal : Nat → List Char → Except (List Char) (PyVal × List Char)
  | 0, _ => .error (toL "fuel")
  | n + 1, s =>
    let s' := skipWs s
    match s' with
    | [] => .error (toL "Expecting value")
    | c :: cs =>
      if c == lbChar then pObjStart n cs
      else if c == '[' then pArrStart n cs
      else if c == qChar then (pStrBody (cs.length + 1) cs).map (fun (r, rest) => (.str r, rest))
      else if PyStr.startswith (toL "true") s' then .ok (.bool true, s'.drop 4)
      else if PyStr.startswith (toL "false") s' then .ok (.bool false, s'.drop 5)
      else if PyStr.startswith (toL "null") s' then .ok (.none, s'.drop 4)
      else pNum s'

/-- Parse an object body right after the opening brace. -/
def pObjStart : Nat → List Char → Except (List Char) (PyVal × List Char)
  | 0, _ => .error (toL "fuel")
  | n + 1, s =>
    let s' := skipWs s
    match s' with
    | [] => .error (toL "Expecting property name")
    | c :: cs =>
      if c == rbChar then .ok (.dict [], cs)
      else pObjMembers n [] (c :: cs)

/-- Parse the members of an object (at a position expecting a key). -/
def pObjMembers : Nat → List (List Char × PyVal) → List Char →
    Except (List Char) (PyVal × List Char)
  | 0, _, _ => .error (toL "fuel")
  | n + 1, acc, s =>
    let s' := skipWs s
    match s' with
    | [] => .error (toL "Expecting property name")
    | c :: cs =>
      if c == qChar then
        match pStrBody (cs.length + 1) cs with
        | .error e => .error e
        | .ok (k, rest) =>
          let rest' := skipWs rest
          match rest' with
          | ':' :: rest'' =>
            match pVal n rest'' with
            | .error e => .error e
            | .ok (v, rest3) =>
              let acc' := PyVal.setItem acc k v
              let rest4 := skipWs rest3
              match rest4 with
              | ',' :: rest5 => pObjMembers n acc' rest5
              | d :: rest5 =>
                if d == rbChar then .ok (.dict acc', rest5)
                else .error (toL "Expecting ',' delimiter")
              | [] => .error (toL "Expecting ',' delimiter")
          | _ => .error (toL "Expecting ':' delimiter")
      else .error (toL "Expecting property name")

/-- Parse an array body right after the opening bracket. -/
def pArrStart : Nat → List Char → Except (List Char) (PyVal × List Char)
  | 0, _ => .error (toL "fuel")
  | n + 1, s =>
    let s' := skipWs s
    match s' with
    | ']' :: cs => .ok (.list [], cs)
    | _ => pArrItems n [] s'

/-- Parse the items of an array (at a position expecting a value). -/
def pArrItems : Nat → List PyVal → List Char → Except (List Char) (PyVal × List Char)
  | 0, _, _ => .error (toL "fuel")
  | n + 1, acc, s =>
    match pVal n s with
    | .error e => .error e
    | .ok (v, rest) =>
      let rest' := skipWs rest
      match rest' with
      | ',' :: rest'' => pArrItems n (acc ++ [v]) rest''
      | ']' :: rest'' => .ok (.list (acc ++ [v]), rest'')
      | _ => .error (toL "Expecting ',' delimiter")

end

/-- `json.loads(s)`: parse one value and require only whitespace after it. -/
def loads (s : List Char) : Except PyErr PyVal :=
  match pVal (4 * (s.length + 1)) s with
  | .error m => .error (.jsonDecodeError m)
  | .ok (v, rest) =>
    if (skipWs rest).isEmpty then .ok v
    else .error (.jsonDecodeError (toL "Extra data"))

end Json

/-! ## `src/modules/feedback_analyzer.py` — FeedbackAnalyzer -/

namespace FeedbackAnalyzer

/-- The five values of the feedback-analyzer `FeedbackType` enum, in
declaration order. -/
def feedbackTypeValues : List (List Char) :=
  [toL "NEGATIVE", toL "UNCERTAIN", toL "NEED_TIME", toL "POSITIVE", toL "LOST_CONFIDENCE"]

/-- A control character outside the allowed set `\n`, `\r`, `\t`. -/
def badControl (c : Char) : Bool :=
  c.toNat < 32 && c.toNat != 10 && c.toNat != 13 && c.toNat != 9

/-- `FeedbackAnalyzer._validate_input`. -/
def validate_input (feedback solution : List Char) : Except PyErr Unit :=
  if (PyStr.strip feedback).isEmpty then
    .error (.feedbackAnalysisError (toL "Feedback cannot be empty"))
  else if (PyStr.strip solution).isEmpty then
    .error (.feedbackAnalysisError (toL "Solution cannot be empty"))
  else if feedback.any badControl then
    .error (.feedbackAnalysisError (toL "Feedback contains invalid characters"))
  else if solution.any badControl then
    .error (.feedbackAnalysisError (toL "Solution contains invalid characters"))
  else .ok ()

/-- Keep only letters and underscores, then upper-case — the `type`
normalisation of `_parse_llm_response`. -/
def normalizeType (s : List Char) : List Char :=
  PyStr.upper (s.filter (fun c => PyStr.pyIsAlpha c || c == '_'))

/-- Remove leading and trailing double quotes (`.strip('"')`). -/
def stripQuotes (s : List Char) : List Char :=
  ((s.dropWhile (· == qChar)).reverse.dropWhile (· == qChar)).reverse

/-- The plain-text fallback of `_parse_llm_response` taken when
`json.loads` raises: scan for `type`/`response` lines. -/
def parseFallback (content : List Char) (jsonMsg : List Char) : Except PyErr PyVal :=
  if PyStr.containsSub (toL "type") content && PyStr.containsSub (toL "response") content then
    let lines := PyStr.split (toL "\n") content
    let typeLine := lines.find? (fun l => PyStr.containsSub (toL "type") (PyStr.lower l))
    let responseLine := lines.find? (fun l => PyStr.containsSub (toL "response") (PyStr.lower l))
    match typeLine, responseLine with
    | some tl, some rl =>
      match (PyStr.split (toL ":") tl).get? 1, (PyStr.split (toL ":") rl).get? 1 with
      | some tseg, some rseg =>
        .ok (.dict [(toL "type", .str (normalizeType tseg)),
                    (toL "response", .str (stripQuotes (PyStr.strip rseg)))])
      | _, _ => .error (.indexError (toL "list index out of range"))
    | _, _ =>
      .error (.feedbackAnalysisError (toL "Failed to parse LLM response: " ++ jsonMsg))
  else
    .error (.feedbackAnalysisError (toL "Failed to parse LLM response: " ++ jsonMsg))

/-- `FeedbackAnalyzer._parse_llm_response`. -/
def parse_llm_response (content : List Char) : Except PyErr PyVal :=
  let fenceJson := toL "```json\n"
  let fenceBare := toL "```\n"
  let fence := toL "```"
  let content :=
    if PyStr.startswith fenceJson content then
      (PyStr.split fence ((PyStr.split fenceJson content).getD 1 [])).getD 0 []
    else if PyStr.startswith fenceBare content then
      (PyStr.split fence ((PyStr.split fenceBare content).getD 1 [])).getD 0 []
    else content
  match Json.loads content with
  | .ok result =>
    match result with
    | .dict es =>
      match PyVal.lookup (toL "type") es with
      | some (.str ts) =>
        .ok (.dict (PyVal.setItem es (toL "type") (.str (normalizeType ts))))
      | _ => .ok (.dict es)
    | _ => .error (.attributeError (toL "object has no attribute 'get'"))
  | .error (.jsonDecodeError m) => parseFallback content m
  | .error e => .error e

/-- `FeedbackAnalyzer._validate_result`. -/
def validate_result (result : PyVal) : Except PyErr Unit :=
  match result with
  | .dict es =>
    match PyVal.lookup (toL "type") es with
    | Option.none => .error (.feedbackAnalysisError (toL "Missing required field: type"))
    | some tv =>
      match PyVal.lookup (toL "response") es with
      | Option.none => .error (.feedbackAnalysisError (toL "Missing required field: response"))
      | some rv =>
        match tv with
        | .str ts =>
          match rv with
          | .str _ =>
            if feedbackTypeValues.any (· == ts) then .ok ()
            else .error (.feedbackAnalysisError (toL "Invalid feedback type: " ++ ts))
          | _ => .error (.feedbackAnalysisError (toL "Invalid response format: not a string"))
        | _ => .error (.feedbackAnalysisError (toL "Invalid type format: not a string"))
  | _ => .error (.feedbackAnalysisError (toL "Invalid result format: not a dictionary"))

/-- `FeedbackAnalyzer.analyze`, with the generation-service reply supplied
as an oracle; the second component counts generation-service calls placed. -/
def analyze (feedback solution : List Char) (llm : Except PyErr (List Char)) :
    Except PyErr PyVal × Nat :=
  match validate_input feedback solution with
  | .error e => (.error e, 0)
  | .ok _ =>
    if feedback.length > 5000 then
      (.error (.feedbackAnalysisError (toL "Feedback is too long")), 0)
    else
      match llm with
      | .error e => (.error e, 1)
      | .ok content =>
        match parse_llm_response content with
        | .error e => (.error e, 1)
        | .ok result =>
          match validate_result result with
          | .error e => (.error e, 1)
          | .ok _ => (.ok result, 1)

end FeedbackAnalyzer

/-! ## `src/modules/privacy_checker.py` — PrivacyChecker -/

/-- The message text carried by an exception. -/
def PyErr.msg : PyErr → List Char
  | .valueError m => m
  | .keyError m => m
  | .attributeError m => m
  | .typeError m => m
  | .indexError m => m
  | .validationError m => m
  | .feedbackAnalysisError m => m
  | .jsonDecodeError m => m

namespace PrivacyChecker

/-- The 100 common Chinese surnames of `PrivacyChecker.common_surnames`. -/
def common_surnames : List Char :=
  toL "李王张刘陈杨黄赵周吴徐孙朱马胡郭林何高梁郑罗宋谢唐韩曹许邓萧冯曾程蔡彭潘袁于董余苏叶吕魏蒋田杜丁沈姜范江傅钟卢汪戴崔任陆廖姚方金邱夏谭韦贾邹石熊孟秦阎薛侯雷白龙段郝孔邵史毛常万顾赖武康贺严尹钱施牛洪龚"

/-- Given-name characters checked after a surname. -/
def givenNameChars : List Char := toL "三四五六七八九明华军伟强平"

/-- Two-character titles checked after a surname. -/
def titleWords : List (List Char) := [toL "老师", toL "经理", toL "主任", toL "医生", toL "教授"]

/-- Given-name characters checked after `小`. -/
def xiaoNameChars : List Char := toL "明红华强军伟玲芳英梅"

/-- `PrivacyChecker._contains_real_name`: the deterministic name-pattern
scan over consecutive character pairs (plus a two-character title window). -/
def contains_real_name : List Char → Bool
  | c1 :: c2 :: rest =>
    (common_surnames.contains c1 &&
      (givenNameChars.contains c2 ||
        (match rest with
         | c3 :: _ => titleWords.contains [c2, c3]
         | [] => false)))
    || (c1 == '小' && xiaoNameChars.contains c2)
    || ((c1 == '老' || c1 == '小') && common_surnames.contains c2)
    || contains_real_name (c2 :: rest)
  | _ => false

/-- `\s*` followed by a literal ` ``` ` (the tail of the fenced-JSON regex). -/
def wsThenFence (s : List Char) : Bool :=
  PyStr.startswith [btChar, btChar, btChar] (s.dropWhile PyStr.pyIsSpace)

/-- Lazy expansion of `{[\s\S]*?}` inside the fenced regex: stop at the
first `}` whose continuation matches `\s*```. -/
def lazyGroup : List Char → Option (List Char × List Char)
  | [] => Option.none
  | c :: cs =>
    if c == rbChar && wsThenFence cs then some ([rbChar], cs)
    else (lazyGroup cs).map (fun (g, rest) => (c :: g, rest))

/-- One attempted match of ` ```(?:json)?\s*({[\s\S]*?})\s*``` ` anchored at
the current position. -/
def tryFenceMatch (s : List Char) : Option (List Char) :=
  if PyStr.startswith [btChar, btChar, btChar] s then
    let rest := s.drop 3
    let rest := if PyStr.startswith (toL "json") rest then rest.drop 4 else rest
    let rest := rest.dropWhile PyStr.pyIsSpace
    match rest with
    | c :: cs =>
      if c == lbChar then (lazyGroup cs).map (fun (g, _) => lbChar :: g)
      else Option.none
    | [] => Option.none
  else Option.none

/-- `re.search` for the fenced-JSON pattern: leftmost successful start. -/
def searchFence : List Char → Option (List Char)
  | [] => Option.none
  | s@(_ :: cs) =>
    match tryFenceMatch s with
    | some g => some g
    | Option.none => searchFence cs

/-- Lazy expansion of the bare `({[\s\S]*?})` pattern: up to the first `}`. -/
def takeUntilRb : List Char → Option (List Char)
  | [] => Option.none
  | c :: cs => if c == rbChar then some [rbChar] else (takeUntilRb cs).map (c :: ·)

/-- `re.search(r'({[\s\S]*?})', text)`: earliest `{` with a later `}`. -/
def searchBrace : List Char → Option (List Char)
  | [] => Option.none
  | c :: cs =>
    if c == lbChar then
      match takeUntilRb cs with
      | some g => some (lbChar :: g)
      | Option.none => searchBrace cs
    else searchBrace cs

/-- `PrivacyChecker._extract_json_from_markdown`. -/
def extract_json_from_markdown (text : List Char) : List Char :=
  match searchFence text with
  | some g => PyStr.strip g
  | Option.none =>
    match searchBrace text with
    | some g => PyStr.strip g
    | Option.none => PyStr.strip text

end PrivacyChecker

/-- `PrivacyCheckResult`: one field per constructor assignment, each filled
by `details.get(...)` with the constructor's defaults. -/
structure PrivacyCheckResult where
  is_safe : PyVal
  has_real_names : PyVal
  has_modern_political : PyVal
  has_historical_figure : PyVal
  has_public_figure : PyVal
  figure_category : PyVal
  user_emotion : PyVal
  risk_level : PyVal
  suggestion : PyVal
  rejection_required : PyVal

namespace PrivacyChecker

/-- `PrivacyCheckResult.__init__`: every field is read off `details` with
`.get`, which raises on non-dictionaries. -/
def resultOfDetails (is_safe : PyVal) (details : PyVal) : Except PyErr PrivacyCheckResult := do
  let hrn ← details.get (toL "has_real_names") (.bool false)
  let hmp ← details.get (toL "has_modern_political") (.bool false)
  let hhf ← details.get (toL "has_historical_figure") (.bool false)
  let hpf ← details.get (toL "has_public_figure") (.bool false)
  let fc ← details.get (toL "figure_category") (.str (toL "none"))
  let ue ← details.get (toL "user_emotion") (.str (toL "neutral"))
  let rl ← details.get (toL "risk_level") (.str (toL "low"))
  let sg ← details.get (toL "suggestion") (.str [])
  let rr ← details.get (toL "rejection_required") (.bool false)
  return ⟨is_safe, hrn, hmp, hhf, hpf, fc, ue, rl, sg, rr⟩

/-- The details dictionary built in the rule-match branch of `check_privacy`. -/
def ruleDetails : PyVal :=
  .dict [(toL "is_safe", .bool false),
         (toL "has_real_names", .bool true),
         (toL "has_modern_political", .bool false),
         (toL "has_historical_figure", .bool false),
         (toL "has_public_figure", .bool false),
         (toL "figure_category", .str (toL "none")),
         (toL "user_emotion", .str (toL "neutral")),
         (toL "risk_level", .str (toL "high")),
         (toL "suggestion", .str (toL "检测到真实姓名，请使用关系称谓代替")),
         (toL "rejection_required", .bool true)]

/-- Python `field in result` for the container kinds `json.loads` returns. -/
def containsField (result : PyVal) (k : List Char) : Except PyErr Bool :=
  match result with
  | .dict es => .ok (PyVal.lookup k es).isSome
  | .list xs => .ok (xs.any (PyVal.eqb (.str k)))
  | .str s => .ok (PyStr.containsSub k s)
  | _ => .error (.typeError (toL "argument is not iterable"))

/-- The `try` body of `check_privacy` past the rule phase: one
generation-service call, JSON extraction, required-field check, result
construction. -/
def checkPrivacyModelPhase (llmReply : List Char) : Except PyErr PrivacyCheckResult := do
  let result ← Json.loads (extract_json_from_markdown llmReply)
  let f1 ← containsField result (toL "is_safe")
  if !f1 then throw (.validationError (toL "LLM响应缺少必要字段: is_safe"))
  let f2 ← containsField result (toL "risk_level")
  if !f2 then throw (.validationError (toL "LLM响应缺少必要字段: risk_level"))
  let f3 ← containsField result (toL "rejection_required")
  if !f3 then throw (.validationError (toL "LLM响应缺少必要字段: rejection_required"))
  let isSafe ← result.index (toL "is_safe")
  resultOfDetails isSafe result

/-- `PrivacyChecker.check_privacy` with the generation service as an oracle;
the second component counts generation-service calls placed.  Any exception
in the body is re-wrapped as `ValidationError('隐私检查失败: ...')`. -/
def check_privacy (question : List Char) (llm : Except PyErr (List Char)) :
    Except PyErr PrivacyCheckResult × Nat :=
  if contains_real_name question then
    match resultOfDetails (.bool false) ruleDetails with
    | .ok r => (.ok r, 0)
    | .error e => (.error (.validationError (toL "隐私检查失败: " ++ e.msg)), 0)
  else
    match llm with
    | .error e => (.error (.validationError (toL "隐私检查失败: " ++ e.msg)), 1)
    | .ok content =>
      match checkPrivacyModelPhase content with
      | .ok r => (.ok r, 1)
      | .error e => (.error (.validationError (toL "隐私检查失败: " ++ e.msg)), 1)

end PrivacyChecker

/-! ## `src/modules/scope_validator.py` — ScopeValidator -/

/-- `config.settings.UserRole`. -/
inductive UserRole where
  | student
  | parent
  | teacher
  deriving DecidableEq, Repr

namespace ScopeValidator

/-- `p2` occurs after a gap of non-newline characters (the `.*p2` tail of a
`re.search`, where `.` does not match `\n`). -/
def gapAfter (p2 : List Char) : List Char → Bool
  | [] => PyStr.startswith p2 []
  | c :: cs => PyStr.startswith p2 (c :: cs) || (c != '\n' && gapAfter p2 cs)

/-- `re.search(p1 + '.*' + p2, s)` as a Bool. -/
def gapMatch (p1 p2 : List Char) : List Char → Bool
  | [] => PyStr.startswith p1 [] && gapAfter p2 []
  | s@(_ :: cs) =>
    (PyStr.startswith p1 s && gapAfter p2 (s.drop p1.length)) || gapMatch p1 p2 cs

/-- The rule-based pre-filter of `validate_question`: the five
`invalid_patterns` in source order, returning the matching rule's reason. -/
def preFilter (q : List Char) : Option (List Char) :=
  if gapMatch (toL "写") (toL "作业") q || gapMatch (toL "写") (toL "作文") q ||
     gapMatch (toL "解") (toL "题") q then
    some (toL "作业代写类问题不在咨询范围内")
  else if gapMatch (toL "吃") (toL "药") q || gapMatch (toL "看") (toL "医生") q ||
     PyStr.containsSub (toL "头疼") q || PyStr.containsSub (toL "感冒") q then
    some (toL "医疗相关问题不在咨询范围内")
  else if PyStr.containsSub (toL "股市") q || PyStr.containsSub (toL "基金") q ||
     PyStr.containsSub (toL "理财") q || PyStr.containsSub (toL "投资") q then
    some (toL "投资理财问题不在咨询范围内")
  else if PyStr.containsSub (toL "政治") q || PyStr.containsSub (toL "宗教") q ||
     PyStr.containsSub (toL "暴力") q || PyStr.containsSub (toL "色情") q then
    some (toL "敏感话题不在咨询范围内")
  else if PyStr.containsSub (toL "天气") q || PyStr.containsSub (toL "电影") q ||
     PyStr.containsSub (toL "购物") q then
    some (toL "日常生活问题不在咨询范围内")
  else Option.none

/-- The dictionary returned for a pre-filter hit. -/
def preFilterResult (reason : List Char) : PyVal :=
  .dict [(toL "is_valid", .bool false),
         (toL "topic", .str []),
         (toL "confidence", .float (mkRat 1 1)),
         (toL "problem_type", .str (toL "非心理咨询范畴")),
         (toL "safety_flag",
           .str (if PyStr.containsSub (toL "敏感话题") reason then toL "危险" else toL "安全")),
         (toL "reason", .str reason)]

/-- `re.sub(r'//.*$', '', text, flags=re.MULTILINE)`: cut each line at its
first `//`. -/
def removeLineComments (text : List Char) : List Char :=
  List.intercalate (toL "\n")
    ((PyStr.split (toL "\n") text).map
      (fun l =>
        match PyStr.findIdx (toL "//") l with
        | some i => l.take i
        | Option.none => l))

mutual

/-- `re.sub(r'\s+', ' ', text)`: collapse whitespace runs to one space. -/
def collapseWs : List Char → List Char
  | [] => []
  | c :: cs => if PyStr.pyIsSpace c then ' ' :: collapseWsSkip cs else c :: collapseWs cs

/-- Worker of `collapseWs` inside a whitespace run. -/
def collapseWsSkip : List Char → List Char
  | [] => []
  | c :: cs => if PyStr.pyIsSpace c then collapseWsSkip cs else c :: collapseWs cs

end

/-- Body of a `\{[^{}]*\}` match after the opening brace: characters up to
the first `}` with no intervening brace. -/
def flatBody : List Char → Option (List Char × List Char)
  | [] => Option.none
  | c :: cs =>
    if c == rbChar then some ([rbChar], cs)
    else if c == lbChar then Option.none
    else (flatBody cs).map (fun (g, r) => (c :: g, r))

/-- Fuelled `re.findall(r'\{[^{}]*\}', text)`. -/
def findFlatFuel : Nat → List Char → List (List Char)
  | 0, _ => []
  | _ + 1, [] => []
  | n + 1, c :: cs =>
    if c == lbChar then
      match flatBody cs with
      | some (g, rest) => (lbChar :: g) :: findFlatFuel n rest
      | Option.none => findFlatFuel n cs
    else findFlatFuel n cs

/-- `re.findall(r'\{[^{}]*\}', text)`. -/
def findFlat (text : List Char) : List (List Char) := findFlatFuel (text.length + 1) text

/-- `ScopeValidator._extract_json_from_markdown`. -/
def extract_json_from_markdown (text : List Char) : Except PyErr (List Char) :=
  if text.isEmpty then .error (.validationError (toL "输入文本不能为空"))
  else
    let t := PyStr.strip text
    if PyStr.startswith [lbChar] t && PyStr.startswith [rbChar] t.reverse &&
        (Json.loads t).isOk then
      .ok t
    else
      let t2 := collapseWs (removeLineComments t)
      match (findFlat t2).getLast? with
      | some m =>
        let j := PyStr.strip m
        match Json.loads j with
        | .ok _ => .ok j
        | .error e => .error (.validationError (toL "无效的JSON格式: " ++ e.msg))
      | Option.none => .error (.validationError (toL "JSON提取失败: 无法从文本中提取JSON"))

/-- Python `isinstance(v, t)` for the declared `required_fields` types. -/
def isBool : PyVal → Bool
  | .bool _ => true
  | _ => false

/-- `isinstance(v, str)`. -/
def isStr : PyVal → Bool
  | .str _ => true
  | _ => false

/-- `isinstance(v, float)`. -/
def isFloat : PyVal → Bool
  | .float _ => true
  | _ => false

/-- Python `field in result` (same container semantics as the privacy
checker's membership test). -/
def containsField (result : PyVal) (k : List Char) : Except PyErr Bool :=
  PrivacyChecker.containsField result k

/-- One entry of the `required_fields` loop: presence then `isinstance`. -/
def checkField (result : PyVal) (k : List Char) (tyOk : PyVal → Bool)
    (tyName : List Char) : Except PyErr Unit := do
  let present ← containsField result k
  if !present then throw (.validationError (toL "缺少必要字段: " ++ k))
  let v ← result.index k
  if !tyOk v then throw (.validationError (toL "字段类型错误: " ++ k ++ toL " 应为 " ++ tyName))

/-- The `required_fields` presence/type loop of `validate_question`. -/
def requiredFieldsCheck (result : PyVal) : Except PyErr Unit := do
  checkField result (toL "is_valid") isBool (toL "bool")
  checkField result (toL "topic") isStr (toL "str")
  checkField result (toL "confidence") isFloat (toL "float")
  checkField result (toL "problem_type") isStr (toL "str")
  checkField result (toL "safety_flag") isStr (toL "str")
  checkField result (toL "reason") isStr (toL "str")

/-- Lines 149–156 of `scope_validator.py`: force `is_valid` to `False` on an
unsafe flag, an out-of-scope problem type, or confidence below `0.8`. -/
def applyValidityRules (result : PyVal) : Except PyErr PyVal := do
  let sf ← result.index (toL "safety_flag")
  let pt ← result.index (toL "problem_type")
  let result ←
    if PyVal.eqb sf (.str (toL "危险")) || PyVal.eqb pt (.str (toL "非心理咨询范畴")) then
      match result with
      | .dict es => pure (PyVal.dict (PyVal.setItem es (toL "is_valid") (.bool false)))
      | _ => throw (.typeError (toL "object does not support item assignment"))
    else pure result
  let conf ← result.index (toL "confidence")
  match conf with
  | .float q =>
    if Rat.blt q (mkRat 4 5) then
      match result with
      | .dict es => pure (PyVal.dict (PyVal.setItem es (toL "is_valid") (.bool false)))
      | _ => throw (.typeError (toL "object does not support item assignment"))
    else pure result
  | _ => throw (.typeError (toL "not supported between instances"))

/-- The inner `try` body of `validate_question` past the basic checks. -/
def validateQuestionCore (q : List Char) (llm : Except PyErr (List Char)) :
    Except PyErr (PyVal × PyVal) := do
  match preFilter q with
  | some reason => return (.bool false, preFilterResult reason)
  | Option.none =>
    let content ←
      match llm with
      | .ok c => pure c
      | .error e => throw (.validationError (toL "LLM调用失败: " ++ e.msg))
    let result ←
      match (do
        let j ← extract_json_from_markdown content
        Json.loads j : Except PyErr PyVal) with
      | .ok r => pure r
      | .error e => throw (.validationError (toL "解析LLM响应失败: " ++ e.msg))
    requiredFieldsCheck result
    let result ← applyValidityRules result
    let iv ← result.index (toL "is_valid")
    return (iv, result)

/-- The dictionary built by the generic `except Exception` arm. -/
def errorInfo (e : PyErr) : PyVal :=
  .dict [(toL "is_valid", .bool false),
         (toL "topic", .str []),
         (toL "confidence", .float (mkRat 0 1)),
         (toL "problem_type", .str (toL "非心理咨询范畴")),
         (toL "safety_flag", .str (toL "危险")),
         (toL "reason", .str e.msg)]

/-- `ScopeValidator.validate_question` (the question is already a string, so
the `str()` coercion is the identity; the role, being typed, is always a
valid `UserRole`). -/
def validate_question (question : List Char) (_role : UserRole)
    (llm : Except PyErr (List Char)) : Except PyErr PyVal :=
  if (PyStr.strip question).isEmpty then .error (.validationError (toL "问题不能为空"))
  else if 1000 ≤ (PyStr.strip question).length then
    .error (.validationError (toL "问题长度不能超过1000字符"))
  else
    match validateQuestionCore (PyStr.strip question) llm with
    | .ok (a, b) => .ok (.tuple2 a b)
    | .error (.validationError m) => .error (.validationError m)
    | .error e => .ok (.tuple2 (.bool false) (errorInfo e))

end ScopeValidator

/-! ## `src/hub/question_validator.py` — QuestionValidator -/

/-- The dictionary returned by `QuestionValidator.validate_question`. -/
structure VQResult where
  is_valid : Bool
  error_message : PyVal
  topic : PyVal
  deriving Inhabited

namespace QuestionValidator

/-- `QuestionValidator.validate_question`: privacy gate, then scope gate,
with the blanket `except Exception` fallback. -/
def validate_question (question : List Char) (role : UserRole)
    (privacyLlm scopeLlm : Except PyErr (List Char)) : VQResult :=
  let body : Except PyErr VQResult := do
    let pr ← (PrivacyChecker.check_privacy question privacyLlm).1
    if !(PyVal.truthy pr.is_safe) then
      return ⟨false,
        (if PyVal.truthy pr.suggestion then pr.suggestion else .str (toL "包含隐私信息")),
        .none⟩
    let scope_result ← ScopeValidator.validate_question question role scopeLlm
    let iv ← scope_result.get (toL "is_valid") (.bool false)
    if !(PyVal.truthy iv) then
      let reason ← scope_result.get (toL "reason") (.str (toL "问题超出咨询范围"))
      return ⟨false, reason, .none⟩
    let topic ← scope_result.get (toL "topic") (.str (toL "未分类"))
    return ⟨true, .none, topic⟩
  match body with
  | .ok r => r
  | .error _ => ⟨false, .str (toL "验证过程发生错误"), .none⟩

end QuestionValidator

/-! ## `src/modules/question_generator.py` — QuestionGenerator -/

namespace QuestionGenerator

/-- `QuestionGenerator._validate_input`. -/
def validate_input (analysis_result : PyVal) : Except PyErr Unit := do
  let p ← PrivacyChecker.containsField analysis_result (toL "problem")
  if !p then throw (.valueError (toL "Missing required field in analysis_result: problem"))
  let m ← PrivacyChecker.containsField analysis_result (toL "missing_info")
  if !m then throw (.valueError (toL "Missing required field in analysis_result: missing_info"))
  let missing_info ← analysis_result.index (toL "missing_info")
  match missing_info with
  | .dict _ =>
    let c ← PrivacyChecker.containsField missing_info (toL "critical")
    if !c then throw (.valueError (toL "Missing required field in missing_info: critical"))
    let cv ← missing_info.index (toL "critical")
    match cv with
    | .list _ =>
      let o ← PrivacyChecker.containsField missing_info (toL "optional")
      if !o then throw (.valueError (toL "Missing required field in missing_info: optional"))
      let ov ← missing_info.index (toL "optional")
      match ov with
      | .list _ => return ()
      | _ => throw (.valueError (toL "Field optional in missing_info must be a list"))
    | _ => throw (.valueError (toL "Field critical in missing_info must be a list"))
  | _ => throw (.valueError (toL "missing_info must be a dictionary"))

/-- `QuestionGenerator.generate` with the generation-service response as an
oracle: input validation, the emptiness guard on the reply, then the reply
text returned stripped — no result validation is invoked on the way out. -/
def generate (analysis_result : PyVal) (llm : Except PyErr PyVal) :
    Except PyErr (List Char) := do
  validate_input analysis_result
  let response ← llm
  let m ← response.get (toL "message") (.dict [])
  let content0 ← m.get (toL "content") .none
  if !(PyVal.truthy response) || !(PyVal.truthy content0) then
    throw (.valueError (toL "Empty response from LLM"))
  let msg ← response.index (toL "message")
  let content ← msg.index (toL "content")
  match content with
  | .str s => return (PyStr.strip s)
  | _ => throw (.attributeError (toL "object has no attribute 'strip'"))

/-- `QuestionGenerator._validate_result`: the declared format/count policy
checker (present in the source but never called by `generate`). -/
def validate_result (result : PyVal) : Except PyErr Unit := do
  let i ← PrivacyChecker.containsField result (toL "introduction")
  if !i then throw (.valueError (toL "Missing required field: introduction"))
  let iv ← result.index (toL "introduction")
  if !(ScopeValidator.isStr iv) then throw (.valueError (toL "Invalid type for field introduction"))
  let qf ← PrivacyChecker.containsField result (toL "questions")
  if !qf then throw (.valueError (toL "Missing required field: questions"))
  let questions ← result.index (toL "questions")
  match questions with
  | .dict _ =>
    let cf ← PrivacyChecker.containsField result (toL "closing")
    if !cf then throw (.valueError (toL "Missing required field: closing"))
    let cv ← result.index (toL "closing")
    if !(ScopeValidator.isStr cv) then throw (.valueError (toL "Invalid type for field closing"))
    let ff ← PrivacyChecker.containsField questions (toL "format")
    if !ff then throw (.valueError (toL "Missing required field in questions: format"))
    let fv ← questions.index (toL "format")
    match fv with
    | .str fs =>
      let cnf ← PrivacyChecker.containsField questions (toL "content")
      if !cnf then throw (.valueError (toL "Missing required field in questions: content"))
      let cnv ← questions.index (toL "content")
      match cnv with
      | .list contents =>
        let pf ← PrivacyChecker.containsField questions (toL "priority")
        if !pf then throw (.valueError (toL "Missing required field in questions: priority"))
        let pv ← questions.index (toL "priority")
        match pv with
        | .list priorities =>
          if fs ≠ toL "list" && fs ≠ toL "direct" then
            throw (.valueError (toL "questions.format must be 'list' or 'direct'"))
          else if contents.length ≠ priorities.length then
            throw (.valueError
              (toL "questions.content and questions.priority must have the same length"))
          else if !(priorities.all fun p =>
              PyVal.eqb p (.str (toL "high")) || PyVal.eqb p (.str (toL "medium"))) then
            throw (.valueError (toL "Invalid priority value"))
          else if fs = toL "direct" && 3 < contents.length then
            throw (.valueError
              (toL "Format 'direct' can only be used when there are 3 or fewer questions"))
          else if fs = toL "list" && contents.length ≤ 3 then
            throw (.valueError
              (toL "Format 'list' should be used when there are more than 3 questions"))
          else return ()
        | _ => throw (.valueError (toL "Invalid type for questions.priority"))
      | _ => throw (.valueError (toL "Invalid type for questions.content"))
    | _ => throw (.valueError (toL "Invalid type for questions.format"))
  | _ => throw (.valueError (toL "Invalid type for field questions"))

end QuestionGenerator

/-! ## `src/modules/report_generator.py` — the final-narration split -/

namespace ReportGenerator

/-- The six report sections, in the order the final report lists them. -/
structure ReportSections where
  complaint : List Char
  requests : List Char
  analysis : List Char
  explanation : List Char
  solution : List Char
  closing : List Char
  deriving DecidableEq, Repr

/-- `[part1, part2] = s.split(sep)`: Python list unpacking of a two-element
split, raising `ValueError` on any other arity. -/
def unpack2 (sep s : List Char) : Except PyErr (List Char × List Char) :=
  match PyStr.split sep s with
  | [a, b] => .ok (a, b)
  | l =>
    if l.length < 2 then
      .error (.valueError (toL "not enough values to unpack (expected 2, got 1)"))
    else
      .error (.valueError (toL "too many values to unpack (expected 2)"))

/-- Lines 140–182 of `report_generator.py`: strip `###`, then split the
narration into the six sections by sequential right-to-left unpacking
(closing first, complaint last). -/
def splitSections (content : List Char) : Except PyErr ReportSections := do
  let content := PyStr.replace (toL "###") [] content
  let (p1, closing) ← unpack2 (toL " 结语") content
  let (p2, solution) ← unpack2 (toL " 解决方案") p1
  let (p3, explanation) ← unpack2 (toL " 权威解释") p2
  let (p4, analysis) ← unpack2 (toL " 问题分析") p3
  let (p5, requests) ← unpack2 (toL " 用户问题与诉求") p4
  let (_, complaint) ← unpack2 (toL " 用户主诉") p5
  return ⟨complaint, requests, analysis, explanation, solution, closing⟩

end ReportGenerator

/-! ## `src/hub/dialogue_manager.py` — DialogueManager -/

namespace DialogueManager

/-- The `DialogueState` enum. -/
inductive DialogueState where
  | initial
  | analysis
  | questionnaire
  | solution
  | feedback
  | report
  | completed
  | error
  | ended
  deriving DecidableEq, Repr

/-- `DialogueState.value`. -/
def DialogueState.value : DialogueState → List Char
  | .initial => toL "initial"
  | .analysis => toL "analysis"
  | .questionnaire => toL "questionnaire"
  | .solution => toL "solution"
  | .feedback => toL "feedback"
  | .report => toL "report"
  | .completed => toL "completed"
  | .error => toL "error"
  | .ended => toL "ended"

/-- The dialogue manager's `FeedbackType` enum (lower-case values). -/
inductive FeedbackType where
  | positive
  | negative
  | uncertain
  | need_time
  | lost_confidence
  deriving DecidableEq, Repr

/-- `FeedbackType.value`. -/
def FeedbackType.value : FeedbackType → List Char
  | .positive => toL "positive"
  | .negative => toL "negative"
  | .uncertain => toL "uncertain"
  | .need_time => toL "need_time"
  | .lost_confidence => toL "lost_confidence"

/-- `config.settings.ERROR_MESSAGES` — exactly the six keys the settings
module defines. -/
def ERROR_MESSAGES : List (List Char × List Char) :=
  [(toL "invalid_topic", toL "抱歉，您的问题不在我们的咨询范围内"),
   (toL "privacy_violation", toL "抱歉，您的问题包含了不应该透露的隐私信息"),
   (toL "political_content", toL "抱歉，我们不讨论政治相关话题"),
   (toL "public_figure", toL "抱歉，我们不讨论具体的公众人物"),
   (toL "validation_error", toL "问题验证失败，请稍后再试"),
   (toL "system_error", toL "系统出现错误，请稍后再试")]

/-- `ERROR_MESSAGES[k]`: dictionary subscription, `KeyError` when absent. -/
def lookupMsg (k : List Char) : Except PyErr (List Char) :=
  match ERROR_MESSAGES.find? (fun e => e.1 == k) with
  | some e => .ok e.2
  | Option.none => .error (.keyError k)

/-- The `analysis_result` value installed by `_get_or_create_session`. -/
def defaultAnalysisResult : PyVal :=
  .dict [(toL "problem", .none),
         (toL "provided_info", .dict []),
         (toL "missing_info", .dict [(toL "critical", .list []), (toL "optional", .list [])]),
         (toL "last_updated", .none)]

/-- The session fields the embedded handlers read or write. -/
structure Session where
  state : DialogueState := .initial
  solution : PyVal := .str []
  analysis_result : PyVal := defaultAnalysisResult
  feedback : PyVal := .none

/-- The empty dictionary `_handle_initial_state` passes in place of a
session: every `.get` access on it yields the default. -/
def emptySession : Session := {}

/-- The response dictionary a handler returns. -/
structure Resp where
  response : PyVal
  state : List Char
  analysis_result : Option PyVal := Option.none
  user_input : Option (List Char) := Option.none
  solution : Option PyVal := Option.none
  feedback_type : Option (List Char) := Option.none

/-- The per-turn outcomes of the four pipeline stages a turn may invoke,
passed to the orchestrator as oracles. -/
structure Stages where
  problemAnalyzer : Except PyErr PyVal
  questionGen : Except PyErr (List Char)
  solutionGen : Except PyErr PyVal
  feedbackAnalyzer : Except PyErr PyVal

/-- `DialogueManager._handle_report_generation`. -/
def handle_report_generation (session : Session) : Resp × Session :=
  ({ response := .str (toL "您的咨询报告已经生成。感谢您的信任，如果还有其他问题，随时都可以来找我。"),
     state := toL "completed" }, session)

/-- `DialogueManager._handle_questionnaire`: generate follow-up questions,
catching `ValueError` and generic exceptions separately. -/
def handle_questionnaire (user_input : List Char) (st : Stages) : Resp :=
  match st.questionGen with
  | .ok questions =>
    { response := .str questions, state := toL "solution", user_input := some user_input }
  | .error (.valueError _) =>
    { response := .str (toL "抱歉，我在生成问题时遇到了一些困难。让我们换个方式，您能告诉我更多关于您的情况吗？"),
      state := toL "questionnaire", user_input := some user_input }
  | .error _ =>
    { response := .str (toL "抱歉，系统出现了一些问题。请稍后再试。"),
      state := toL "questionnaire", user_input := some user_input }

/-- `DialogueManager._handle_solution_generation`. -/
def handle_solution_generation (session : Session) (st : Stages) : Resp × Session :=
  let body : Except PyErr (Resp × Session) := do
    let solution ← st.solutionGen
    let m ← solution.get (toL "message") (.dict [])
    let sol ← m.get (toL "content") (.str [])
    let session' := { session with solution := sol }
    return ({ response := sol, state := toL "feedback", solution := some sol }, session')
  match body with
  | .ok r => r
  | .error _ =>
    ({ response := .str (toL "抱歉，我在生成解决方案时遇到了一些困难。您能再详细描述一下您的情况吗？"),
       state := toL "solution" }, session)

/-- `DialogueManager._handle_problem_analysis`. -/
def handle_problem_analysis (user_input : List Char) (session : Session) (st : Stages) :
    Resp × Session :=
  let body : Except PyErr (Resp × Session) := do
    let analysis_result ← st.problemAnalyzer
    let missing_info ← analysis_result.get (toL "missing_info") (.dict [])
    let critical ← missing_info.get (toL "critical") (.list [])
    let optionalInfo ← missing_info.get (toL "optional") (.list [])
    if PyVal.truthy critical || PyVal.truthy optionalInfo then
      let qr := handle_questionnaire user_input st
      return ({ qr with analysis_result := some analysis_result }, session)
    else
      let (sr, session') := handle_solution_generation session st
      return ({ sr with analysis_result := some analysis_result }, session')
  match body with
  | .ok r => r
  | .error _ =>
    ({ response := .str (toL "抱歉，我在理解您的问题时遇到了一些困难。请您能再详细描述一下吗？"),
       state := toL "analysis" }, session)

/-- `DialogueManager._handle_feedback`. -/
def handle_feedback (user_input : List Char) (session : Session) (st : Stages) :
    Resp × Session :=
  let body : Except PyErr (Resp × Session) := do
    let solution := session.solution
    if !(PyVal.truthy solution) then
      return ({ response := .str (toL "抱歉，我找不到之前的解决方案。让我们重新开始，您能再描述一下您的问题吗？"),
                state := toL "solution" }, session)
    let fb ← st.feedbackAnalyzer
    let tv ← fb.get (toL "type") (.str [])
    let feedback_type ← tv.lowerVal
    let response ← fb.get (toL "response") (.str [])
    let session := { session with
      feedback := .dict [(toL "content", .str user_input), (toL "type", .str feedback_type)] }
    if feedback_type == toL "lost_confidence" then
      let session := { session with state := .ended }
      return ({ response := response, state := toL "ended" }, session)
    else if feedback_type == toL "negative" || feedback_type == toL "uncertain" then
      let r ← response.addStr (toL "\n\n您能具体说说哪些方面需要改进或者有什么疑虑吗？")
      return ({ response := r, state := toL "solution",
                feedback_type := some feedback_type }, session)
    else
      return (handle_report_generation session)
  match body with
  | .ok r => r
  | .error _ =>
    ({ response := .str (toL "抱歉，我在处理您的反馈时遇到了一些问题。您能再说一下您对解决方案的想法吗？"),
       state := toL "feedback" }, session)

/-- `DialogueManager._process_state`: dispatch on the current state with
the outer `try`/`except` boundary.  The unknown-state branch and the
`except` handler both subscript `ERROR_MESSAGES` with keys the settings
module does not define. -/
def process_state (state : DialogueState) (user_input : List Char) (session : Session)
    (st : Stages) : Except PyErr (Resp × Session) :=
  let body : Except PyErr (Resp × Session) :=
    match state with
    | .initial => .ok ((handle_problem_analysis user_input emptySession st).1, session)
    | .analysis => .ok (handle_problem_analysis user_input session st)
    | .questionnaire => .ok (handle_solution_generation session st)
    | .solution => .ok (handle_solution_generation session st)
    | .feedback => .ok (handle_feedback user_input session st)
    | .report => .ok (handle_report_generation session)
    | _ => do
      let m ← lookupMsg (toL "unknown_state")
      return ({ response := .str m, state := toL "initial" }, session)
  match body with
  | .ok r => .ok r
  | .error _ => do
    let m ← lookupMsg (toL "processing_error")
    return ({ response := .str m, state := toL "initial" }, session)

end DialogueManager

/-! ## Statement helpers -/

/-- The returned state of a `process_state` outcome. -/
def respStateOf (r : Except PyErr (DialogueManager.Resp × DialogueManager.Session)) :
    Option (List Char) :=
  match r with
  | .ok (resp, _) => some resp.state
  | .error _ => Option.none

/-- The returned reply of a `process_state` outcome. -/
def respTextOf (r : Except PyErr (DialogueManager.Resp × DialogueManager.Session)) :
    Option PyVal :=
  match r with
  | .ok (resp, _) => some resp.response
  | .error _ => Option.none

/-- An outcome that did not raise. -/
def noRaise {α : Type} (r : Except PyErr α) : Bool :=
  match r with
  | .ok _ => true
  | .error _ => false

/-- An outcome that raised `FeedbackAnalysisError`. -/
def isFeedbackError {α : Type} (r : Except PyErr α) : Bool :=
  match r with
  | .error (.feedbackAnalysisError _) => true
  | _ => false

/-- The privacy checker returned a result whose `is_safe` is truthy (the
gate did not flag the question). -/
def privacyPassed (question : List Char) (pLlm : Except PyErr (List Char)) : Bool :=
  match (PrivacyChecker.check_privacy question pLlm).1 with
  | .ok pr => PyVal.truthy pr.is_safe
  | .error _ => false

/-- The `is_valid` entry of a dictionary-valued outcome. -/
def resultIsValid (r : Except PyErr PyVal) : Option PyVal :=
  match r with
  | .ok (.dict es) => PyVal.lookup (toL "is_valid") es
  | _ => Option.none

/-- Extraction followed by `json.loads`, as the scope validator's caller
performs it. -/
def scopeParsed (t : List Char) : Except PyErr PyVal := do
  let j ← ScopeValidator.extract_json_from_markdown t
  Json.loads j

/-- `w` disagrees with `w'` at some position inside both. -/
def mismatchB : List Char → List Char → Bool
  | [], _ => false
  | _, [] => false
  | a :: as, b :: bs => a != b || mismatchB as bs

/-- A report-section body clean for the split protocol: no space (the
delimiters' lead character) and no `#` (removed before splitting). -/
def cleanSeg (x : List Char) : Bool := x.all (fun c => c != ' ' && c != '#')

/-- Interleave space-led delimiter words with section bodies:
`joinBlocks [(w1, t1), ...] tail = ' ' :: w1 ++ t1 ++ ... ++ tail`. -/
def joinBlocks : List (List Char × List Char) → List Char → List Char
  | [], tail => tail
  | (w', t') :: rest, tail => (' ' :: w') ++ (t' ++ joinBlocks rest tail)

/-- The next state the §4.6 transition table assigns to a feedback type. -/
def feedbackTableState (ft : DialogueManager.FeedbackType) : List Char :=
  match ft with
  | .lost_confidence => toL "ended"
  | .negative | .uncertain => toL "solution"
  | .positive | .need_time => toL "completed"

/-- The reply the feedback handler returns for a feedback type, given the
classifier's reply text `r`. -/
def feedbackTableReply (ft : DialogueManager.FeedbackType) (r : List Char) : PyVal :=
  match ft with
  | .lost_confidence => .str r
  | .negative | .uncertain => .str (r ++ toL "\n\n您能具体说说哪些方面需要改进或者有什么疑虑吗？")
  | .positive | .need_time =>
    .str (toL "您的咨询报告已经生成。感谢您的信任，如果还有其他问题，随时都可以来找我。")
/-- Concrete artifacts for the question-generator policy check: a
missing-info input and an LLM reply whose parsed result has four
questions yet `format = "direct"`. -/
def qgBadReplyText : List Char :=
  toL "\x7b\"introduction\": \"为了帮您\", \"questions\": \x7b\"format\": \"direct\", \"content\": [\"q1\", \"q2\", \"q3\", \"q4\"], \"priority\": [\"high\", \"high\", \"medium\", \"medium\"]\x7d, \"closing\": \"谢谢\"\x7d"

def qgBadResult : PyVal :=
  .dict [(toL "introduction", .str (toL "为了帮您")),
         (toL "questions",
           .dict [(toL "format", .str (toL "direct")),
                  (toL "content", .list [.str (toL "q1"), .str (toL "q2"),
                                         .str (toL "q3"), .str (toL "q4")]),
                  (toL "priority", .list [.str (toL "high"), .str (toL "high"),
                                          .str (toL "medium"), .str (toL "medium")])]),
         (toL "closing", .str (toL "谢谢"))]

def qgInputC4 : PyVal :=
  .dict [(toL "problem", .str (toL "失眠")),
         (toL "missing_info",
           .dict [(toL "critical", .list [.str (toL "a"), .str (toL "b"),
                                          .str (toL "c"), .str (toL "d")]),
                  (toL "optional", .list [])])]


/-- C9 counterexample pieces: a nested JSON object, fenced and bare. -/
def scopeWrapped : List Char := toL "```json\n\x7b\"a\": \x7b\"b\": 1\x7d\x7d\n```"
def scopeUnwrapped : List Char := toL "\x7b\"a\": \x7b\"b\": 1\x7d\x7d"


mutual

/-- `eqb` is reflexive. -/
theorem PyVal.eqb_refl : ∀ a : PyVal, PyVal.eqb a a = true
  | .none => rfl
  | .bool b => by simp [PyVal.eqb]
  | .int n => by simp [PyVal.eqb]
  | .float q => by simp [PyVal.eqb]
  | .str s => by simp [PyVal.eqb]
  | .list xs => by simpa [PyVal.eqb] using PyVal.eqbList_refl xs
  | .tuple2 a b => by simp [PyVal.eqb, PyVal.eqb_refl a, PyVal.eqb_refl b]
  | .dict es => by simpa [PyVal.eqb] using PyVal.eqbEntries_refl es

/-- `eqbList` is reflexive. -/
theorem PyVal.eqbList_refl : ∀ xs : List PyVal, PyVal.eqbList xs xs = true
  | [] => rfl
  | a :: as => by simp [PyVal.eqbList, PyVal.eqb_refl a, PyVal.eqbList_refl as]

/-- `eqbEntries` is reflexive. -/
theorem PyVal.eqbEntries_refl : ∀ es : List (List Char × PyVal), PyVal.eqbEntries es es = true
  | [] => rfl
  | (_, v) :: es => by simp [PyVal.eqbEntries, PyVal.eqb_refl v, PyVal.eqbEntries_refl es]

end

/-- Values whose `eqb` is `false` are distinct. -/
theorem PyVal.ne_of_eqb_false {a b : PyVal} (h : PyVal.eqb a b = false) : a ≠ b := by
  intro he
  rw [he, PyVal.eqb_refl] at h
  exact Bool.noConfusion h


/-- C10: in state `ERROR` (and the other unlisted states) the dispatch
returns no reply at all: the unknown-state branch's `ERROR_MESSAGES`
lookup raises `KeyError`, and the `except` handler's own lookup of
`processing_error` raises another `KeyError` that escapes. -/
theorem error_state_raises_keyerror :
    ∀ (input : List Char) (session : DialogueManager.Session) (st : DialogueManager.Stages),
    DialogueManager.process_state .error input session st =
        .error (.keyError (toL "processing_error")) ∧
    DialogueManager.process_state .completed input session st =
        .error (.keyError (toL "processing_error")) ∧
    DialogueManager.process_state .ended input session st =
        .error (.keyError (toL "processing_error")) :=
  fun _ _ _ => ⟨rfl, rfl, rfl⟩

/-- C8: any question matched by the deterministic name-pattern rules gets the
fixed unsafe result — `is_safe=false`, `has_real_names=true`,
`risk_level='high'`, `rejection_required=true` — with zero
generation-service calls placed. -/
theorem name_rule_short_circuit (q : List Char) (llm : Except PyErr (List Char))
    (h : PrivacyChecker.contains_real_name q = true) :
    PrivacyChecker.check_privacy q llm =
      (.ok ⟨.bool false, .bool true, .bool false, .bool false, .bool false,
            .str (toL "none"), .str (toL "neutral"), .str (toL "high"),
            .str (toL "检测到真实姓名，请使用关系称谓代替"), .bool true⟩, 0) := by
  simp [PrivacyChecker.check_privacy, h]
  rfl

theorem name_rule_short_circuit_witness :
    PrivacyChecker.contains_real_name (toL "张三和李四经常吵架") = true ∧
    PrivacyChecker.check_privacy (toL "张三和李四经常吵架") (.error (.valueError [])) =
      (.ok ⟨.bool false, .bool true, .bool false, .bool false, .bool false,
            .str (toL "none"), .str (toL "neutral"), .str (toL "high"),
            .str (toL "检测到真实姓名，请使用关系称谓代替"), .bool true⟩, 0) :=
  ⟨by decide, name_rule_short_circuit _ _ (by decide)⟩

/-- C4: `QuestionGenerator.generate` returns the generation-service reply
without ever invoking `_validate_result`: a reply whose parsed result has
four questions with `format = "direct"` is returned successfully, although
`_validate_result` would reject exactly that result. -/
theorem generate_skips_validate_result :
    QuestionGenerator.generate qgInputC4
        (.ok (.dict [(toL "message", .dict [(toL "content", .str qgBadReplyText)])])) =
      .ok qgBadReplyText ∧
    Json.loads qgBadReplyText = .ok qgBadResult ∧
    QuestionGenerator.validate_result qgBadResult =
      .error (.valueError (toL "Format 'direct' can only be used when there are 3 or fewer questions")) :=
  ⟨rfl, rfl, rfl⟩

/-- C6 counterexample: a narration reply missing the `' 结语'` delimiter
makes the compiler raise a plain `ValueError` from list unpacking — not a
`ContractViolation`, a type the codebase never defines. -/
theorem report_missing_delimiter_valueerror :
    ReportGenerator.splitSections (toL "这份回复没有任何分隔符") =
      .error (.valueError (toL "not enough values to unpack (expected 2, got 1)")) := rfl

/-- C9 counterexample: the scope validator's extraction applied to a
nested JSON object wrapped in a markdown fence recovers only the inner
object, while the same text without the fence parses to the whole object —
the fence-stripping round-trip fails. -/
theorem scope_extract_not_roundtrip :
    scopeParsed scopeWrapped = .ok (.dict [(toL "b", .int 1)]) ∧
    scopeParsed scopeUnwrapped = .ok (.dict [(toL "a", .dict [(toL "b", .int 1)])]) ∧
    (PyVal.dict [(toL "b", .int 1)]) ≠ (PyVal.dict [(toL "a", .dict [(toL "b", .int 1)])]) :=
  ⟨rfl, rfl, PyVal.ne_of_eqb_false rfl⟩

/-- Setting a key then reading it back yields the new value. -/
theorem PyVal.lookup_setItem_self (es : List (List Char × PyVal)) (k : List Char) (v : PyVal) :
    PyVal.lookup k (PyVal.setItem es k v) = some v := by
  induction es with
  | nil => simp [PyVal.setItem, PyVal.lookup]
  | cons e rest ih =>
    obtain ⟨k', v'⟩ := e
    by_cases h : k' = k
    · simp [PyVal.setItem, PyVal.lookup, h]
    · simp [PyVal.setItem, PyVal.lookup, h, ih]

/-- Setting one key leaves the lookup of a different key unchanged. -/
theorem PyVal.lookup_setItem_of_ne (es : List (List Char × PyVal)) (k k' : List Char)
    (v : PyVal) (h : k' ≠ k) :
    PyVal.lookup k (PyVal.setItem es k' v) = PyVal.lookup k es := by
  induction es with
  | nil => simp [PyVal.setItem, PyVal.lookup, h]
  | cons e rest ih =>
    obtain ⟨k0, v0⟩ := e
    by_cases h0 : k0 = k'
    · subst h0
      simp [PyVal.setItem, PyVal.lookup, h]
    · simp [PyVal.setItem, PyVal.lookup, h0, ih]

/-- Reducing a successful `Except` bind. -/
@[simp] theorem pybind_ok {α β : Type} (a : α) (f : α → Except PyErr β) :
    (Except.ok a : Except PyErr α) >>= f = f a := rfl

/-- Reducing a failed `Except` bind. -/
@[simp] theorem pybind_err {α β : Type} (e : PyErr) (f : α → Except PyErr β) :
    (Except.error e : Except PyErr α) >>= f = Except.error e := rfl

/-- C5: in the scope gate's post-parse checks (lines 149–157 of
`scope_validator.py`), confidence below 0.8, the unsafe safety flag `危险`,
or the out-of-scope problem type `非心理咨询范畴` each force the returned
`is_valid` to `False`, regardless of the raw classifier value. -/
theorem scope_forces_invalid (es : List (List Char × PyVal)) (q : Rat) (sf pt : List Char)
    (hc : PyVal.lookup (toL "confidence") es = some (.float q))
    (hs : PyVal.lookup (toL "safety_flag") es = some (.str sf))
    (hp : PyVal.lookup (toL "problem_type") es = some (.str pt))
    (h : Rat.blt q (mkRat 4 5) = true ∨ sf = toL "危险" ∨ pt = toL "非心理咨询范畴") :
    resultIsValid (ScopeValidator.applyValidityRules (.dict es)) = some (.bool false) := by
  have hne : (toL "is_valid") ≠ (toL "confidence") := by decide
  unfold ScopeValidator.applyValidityRules
  simp only [PyVal.index, hs, hp, hc, pybind_ok, pybind_err]
  split
  · simp only [pure, Except.pure, pybind_ok]
    rw [PyVal.lookup_setItem_of_ne _ _ _ _ hne, hc]
    simp only [pybind_ok]
    split
    · simp [resultIsValid, PyVal.lookup_setItem_self]
    · simp [resultIsValid, PyVal.lookup_setItem_self]
  · next hcond =>
    rw [Bool.not_eq_true, Bool.or_eq_false_iff] at hcond
    obtain ⟨hc1, hc2⟩ := hcond
    have h2 : Rat.blt q (mkRat 4 5) = true := by
      rcases h with h | h | h
      · exact h
      · subst h
        simp [PyVal.eqb] at hc1
      · subst h
        simp [PyVal.eqb] at hc2
    simp [hc, h2, resultIsValid, PyVal.lookup_setItem_self, pure, Except.pure]

theorem scope_forces_invalid_witness :
    resultIsValid (ScopeValidator.applyValidityRules
        (.dict [(toL "is_valid", .bool true), (toL "topic", .str (toL "学习")),
                (toL "confidence", .float (mkRat 1 2)),
                (toL "problem_type", .str (toL "学习问题")),
                (toL "safety_flag", .str (toL "安全")),
                (toL "reason", .str (toL "ok"))])) = some (.bool false) :=
  scope_forces_invalid _ (mkRat 1 2) (toL "安全") (toL "学习问题")
    rfl rfl rfl (Or.inl (by decide))

/-- `_validate_input` raises only `FeedbackAnalysisError`. -/
theorem FeedbackAnalyzer.validate_input_err_shape (f s : List Char) (e : PyErr)
    (h : FeedbackAnalyzer.validate_input f s = .error e) :
    ∃ m, e = .feedbackAnalysisError m := by
  unfold FeedbackAnalyzer.validate_input at h
  split_ifs at h <;> exact ⟨_, (Except.error.inj h).symm⟩

/-- A feedback accepted by `_validate_input` contains no banned control
character. -/
theorem FeedbackAnalyzer.validate_input_ok_no_ctrl (f s : List Char)
    (h : FeedbackAnalyzer.validate_input f s = .ok ()) :
    f.any FeedbackAnalyzer.badControl = false := by
  unfold FeedbackAnalyzer.validate_input at h
  split_ifs at h with h1 h2 h3 h4
  simpa using h3

/-- C7: feedback longer than 5000 characters, or containing a control
character outside `\n`, `\r`, `\t`, makes `FeedbackAnalyzer.analyze`
raise `FeedbackAnalysisError` with zero generation-service calls placed. -/
theorem feedback_rejects_before_call (f s : List Char) (llm : Except PyErr (List Char))
    (h : 5000 < f.length ∨ f.any FeedbackAnalyzer.badControl = true) :
    isFeedbackError (FeedbackAnalyzer.analyze f s llm).1 = true ∧
    (FeedbackAnalyzer.analyze f s llm).2 = 0 := by
  unfold FeedbackAnalyzer.analyze
  cases hv : FeedbackAnalyzer.validate_input f s with
  | error e =>
    obtain ⟨m, rfl⟩ := FeedbackAnalyzer.validate_input_err_shape f s e hv
    exact ⟨rfl, rfl⟩
  | ok u =>
    obtain ⟨⟩ := u
    have hlen : 5000 < f.length := by
      rcases h with h | h
      · exact h
      · rw [FeedbackAnalyzer.validate_input_ok_no_ctrl f s hv] at h
        exact absurd h (by simp)
    simp [hlen, isFeedbackError]

theorem feedback_rejects_before_call_witness :
    isFeedbackError (FeedbackAnalyzer.analyze [Char.ofNat 7, 'h', 'i'] (toL "方案")
        (.ok (toL "reply"))).1 = true ∧
    (FeedbackAnalyzer.analyze [Char.ofNat 7, 'h', 'i'] (toL "方案") (.ok (toL "reply"))).2 = 0 :=
  feedback_rejects_before_call _ _ _ (Or.inr (by decide))

/-- Every exit of `ScopeValidator.validate_question` is either a
`(bool, dict)` tuple or a raised `ValidationError`. -/
theorem ScopeValidator.validate_question_shape (q : List Char) (role : UserRole)
    (llm : Except PyErr (List Char)) :
    (∃ a b, ScopeValidator.validate_question q role llm = .ok (.tuple2 a b)) ∨
    (∃ m, ScopeValidator.validate_question q role llm = .error (.validationError m)) := by
  unfold ScopeValidator.validate_question
  split_ifs
  · exact Or.inr ⟨_, rfl⟩
  · exact Or.inr ⟨_, rfl⟩
  · cases hcore : ScopeValidator.validateQuestionCore (PyStr.strip q) llm with
    | ok p =>
      obtain ⟨a, b⟩ := p
      exact Or.inl ⟨a, b, by simp [hcore]⟩
    | error e =>
      cases e <;> simp [hcore]

/-- C2: whenever the privacy checker does not flag the question, and for
any role, `QuestionValidator.validate_question` returns `is_valid = False`
with `error_message = '验证过程发生错误'`: the scope validator returns a
`(bool, dict)` tuple, the `.get` call on it raises `AttributeError`, and
the blanket `except` converts this into the fixed invalid result. -/
theorem validator_rejects_everything (question : List Char) (role : UserRole)
    (pLlm sLlm : Except PyErr (List Char))
    (h : privacyPassed question pLlm = true) :
    QuestionValidator.validate_question question role pLlm sLlm =
      ⟨false, .str (toL "验证过程发生错误"), .none⟩ := by
  unfold QuestionValidator.validate_question
  unfold privacyPassed at h
  cases hp : (PrivacyChecker.check_privacy question pLlm).1 with
  | error e =>
    rw [hp] at h
    exact absurd h (by simp)
  | ok pr =>
    rw [hp] at h
    simp only [] at h
    rcases ScopeValidator.validate_question_shape question role sLlm with ⟨a, b, hsc⟩ | ⟨m, hsc⟩ <;>
      simp [hp, hsc, h, PyVal.get, pure, Except.pure]

theorem validator_rejects_everything_witness :
    QuestionValidator.validate_question (toL "今天心情不好") UserRole.student
        (.ok (toL "\x7b\"is_safe\": true, \"risk_level\": \"low\", \"rejection_required\": false\x7d"))
        (.error (.validationError (toL "transport"))) =
      ⟨false, .str (toL "验证过程发生错误"), .none⟩ :=
  validator_rejects_everything _ _ _ _ (by decide)

/-- C1: a feedback turn with a stored solution transitions exactly per the
table — `LOST_CONFIDENCE → ENDED` returning the classifier's reply,
`NEGATIVE`/`UNCERTAIN → SOLUTION_GENERATION` with the reply appended with
a prompt for specifics, and `POSITIVE`/`NEED_TIME` route to report
generation returning state `COMPLETED`. -/
theorem feedback_transition_table (session : DialogueManager.Session) (input r : List Char)
    (st : DialogueManager.Stages) (ft : DialogueManager.FeedbackType)
    (hsol : PyVal.truthy session.solution = true)
    (hfb : st.feedbackAnalyzer =
      .ok (.dict [(toL "type", .str (PyStr.upper ft.value)),
                  (toL "response", .str r)])) :
    respStateOf (DialogueManager.process_state .feedback input session st) =
      some (feedbackTableState ft) ∧
    respTextOf (DialogueManager.process_state .feedback input session st) =
      some (feedbackTableReply ft r) := by
  obtain ⟨pa, qg, sg, fba⟩ := st
  simp only [] at hfb
  subst hfb
  cases ft <;>
    (simp only [DialogueManager.process_state, DialogueManager.handle_feedback]
     rw [hsol]
     exact ⟨rfl, rfl⟩)

theorem feedback_transition_table_witness :
    respStateOf (DialogueManager.process_state .feedback (toL "很有帮助")
        { state := .feedback, solution := .str (toL "方案") }
        ⟨.error (.valueError []), .error (.valueError []), .error (.valueError []),
         .ok (.dict [(toL "type",
                       .str (PyStr.upper DialogueManager.FeedbackType.positive.value)),
                     (toL "response", .str (toL "谢谢"))])⟩) =
      some (feedbackTableState .positive) ∧
    respTextOf (DialogueManager.process_state .feedback (toL "很有帮助")
        { state := .feedback, solution := .str (toL "方案") }
        ⟨.error (.valueError []), .error (.valueError []), .error (.valueError []),
         .ok (.dict [(toL "type",
                       .str (PyStr.upper DialogueManager.FeedbackType.positive.value)),
                     (toL "response", .str (toL "谢谢"))])⟩) =
      some (feedbackTableReply .positive (toL "谢谢")) :=
  feedback_transition_table _ _ (toL "谢谢") _ .positive rfl rfl

/-- C3 counterexample: with the session in state `QUESTIONNAIRE` and the
solution stage raising, the turn returns state `solution` — neither the
unchanged state `questionnaire` nor the analysis fallback `analysis`, so
the claimed state-preservation fails. -/
theorem questionnaire_failure_changes_state :
    respStateOf (DialogueManager.process_state .questionnaire (toL "补充信息")
        { state := .questionnaire }
        ⟨.error (.valueError (toL "x")), .error (.valueError (toL "x")),
         .error (.valueError (toL "boom")), .error (.valueError (toL "x"))⟩) =
      some (toL "solution") ∧
    toL "solution" ≠ DialogueManager.DialogueState.questionnaire.value ∧
    toL "solution" ≠ DialogueManager.DialogueState.analysis.value :=
  ⟨rfl, by decide, by decide⟩

/-- C3 amended: each stage exception is caught inside its own handler and
converted to a fixed apologetic reply; the resulting state is the
handler's retry state (analysis failures → `analysis`, solution failures →
`solution` even when dispatched from `QUESTIONNAIRE`, question-generation
failures → `questionnaire`, feedback failures → `feedback`), and no stage
exception escapes the dispatch of the six handled states. -/
theorem stage_failures_handled (input : List Char) (session : DialogueManager.Session)
    (st : DialogueManager.Stages) :
    (∀ e, st.problemAnalyzer = .error e →
      respStateOf (DialogueManager.process_state .initial input session st) =
        some (toL "analysis") ∧
      respStateOf (DialogueManager.process_state .analysis input session st) =
        some (toL "analysis") ∧
      respTextOf (DialogueManager.process_state .analysis input session st) =
        some (.str (toL "抱歉，我在理解您的问题时遇到了一些困难。请您能再详细描述一下吗？"))) ∧
    (∀ e, st.solutionGen = .error e →
      respStateOf (DialogueManager.process_state .questionnaire input session st) =
        some (toL "solution") ∧
      respStateOf (DialogueManager.process_state .solution input session st) =
        some (toL "solution") ∧
      respTextOf (DialogueManager.process_state .solution input session st) =
        some (.str (toL "抱歉，我在生成解决方案时遇到了一些困难。您能再详细描述一下您的情况吗？"))) ∧
    (∀ e, st.feedbackAnalyzer = .error e → PyVal.truthy session.solution = true →
      respStateOf (DialogueManager.process_state .feedback input session st) =
        some (toL "feedback") ∧
      respTextOf (DialogueManager.process_state .feedback input session st) =
        some (.str (toL "抱歉，我在处理您的反馈时遇到了一些问题。您能再说一下您对解决方案的想法吗？"))) ∧
    (∀ e ar mi cr op, st.problemAnalyzer = .ok ar →
      ar.get (toL "missing_info") (.dict []) = .ok mi →
      mi.get (toL "critical") (.list []) = .ok cr →
      mi.get (toL "optional") (.list []) = .ok op →
      (PyVal.truthy cr || PyVal.truthy op) = true →
      st.questionGen = .error e →
      respStateOf (DialogueManager.process_state .analysis input session st) =
        some (toL "questionnaire")) ∧
    (noRaise (DialogueManager.process_state .initial input session st) = true ∧
     noRaise (DialogueManager.process_state .analysis input session st) = true ∧
     noRaise (DialogueManager.process_state .questionnaire input session st) = true ∧
     noRaise (DialogueManager.process_state .solution input session st) = true ∧
     noRaise (DialogueManager.process_state .feedback input session st) = true ∧
     noRaise (DialogueManager.process_state .report input session st) = true) := by
  refine ⟨?_, ?_, ?_, ?_, rfl, rfl, rfl, rfl, rfl, rfl⟩
  · intro e h
    refine ⟨?_, ?_, ?_⟩ <;>
      simp [DialogueManager.process_state, DialogueManager.handle_problem_analysis, h,
        respStateOf, respTextOf]
  · intro e h
    refine ⟨?_, ?_, ?_⟩ <;>
      simp [DialogueManager.process_state, DialogueManager.handle_solution_generation, h,
        respStateOf, respTextOf]
  · intro e h hsol
    constructor <;>
      simp [DialogueManager.process_state, DialogueManager.handle_feedback, h, hsol,
        respStateOf, respTextOf]
  · intro e ar mi cr op hpa hmi hcr hop htr hqg
    rw [Bool.or_eq_true] at htr
    rcases htr with h | h <;> cases e <;>
      simp [DialogueManager.process_state, DialogueManager.handle_problem_analysis,
        DialogueManager.handle_questionnaire, hpa, hmi, hcr, hop, h, hqg,
        respStateOf, respTextOf, pure, Except.pure]

theorem stage_failures_handled_witness :
    respStateOf (DialogueManager.process_state .analysis (toL "你好")
        { state := .feedback, solution := .str (toL "sol") }
        ⟨.error (.valueError (toL "a")), .error (.valueError (toL "b")),
         .error (.valueError (toL "c")), .error (.valueError (toL "d"))⟩) =
      some (toL "analysis") ∧
    respStateOf (DialogueManager.process_state .solution (toL "你好")
        { state := .feedback, solution := .str (toL "sol") }
        ⟨.error (.valueError (toL "a")), .error (.valueError (toL "b")),
         .error (.valueError (toL "c")), .error (.valueError (toL "d"))⟩) =
      some (toL "solution") ∧
    respStateOf (DialogueManager.process_state .feedback (toL "你好")
        { state := .feedback, solution := .str (toL "sol") }
        ⟨.error (.valueError (toL "a")), .error (.valueError (toL "b")),
         .error (.valueError (toL "c")), .error (.valueError (toL "d"))⟩) =
      some (toL "feedback") ∧
    respStateOf (DialogueManager.process_state .analysis (toL "你好")
        { state := .feedback, solution := .str (toL "sol") }
        ⟨.ok (.dict [(toL "missing_info",
            .dict [(toL "critical", .list [.str (toL "时长")]), (toL "optional", .list [])])]),
         .error (.valueError (toL "qg")), .ok (.dict []), .ok (.dict [])⟩) =
      some (toL "questionnaire") :=
  ⟨((stage_failures_handled (toL "你好") { state := .feedback, solution := .str (toL "sol") }
      ⟨.error (.valueError (toL "a")), .error (.valueError (toL "b")),
       .error (.valueError (toL "c")), .error (.valueError (toL "d"))⟩).1 _ rfl).2.1,
   ((stage_failures_handled (toL "你好") { state := .feedback, solution := .str (toL "sol") }
      ⟨.error (.valueError (toL "a")), .error (.valueError (toL "b")),
       .error (.valueError (toL "c")), .error (.valueError (toL "d"))⟩).2.1 _ rfl).2.1,
   ((stage_failures_handled (toL "你好") { state := .feedback, solution := .str (toL "sol") }
      ⟨.error (.valueError (toL "a")), .error (.valueError (toL "b")),
       .error (.valueError (toL "c")), .error (.valueError (toL "d"))⟩).2.2.1 _ rfl rfl).1,
   (stage_failures_handled (toL "你好") { state := .feedback, solution := .str (toL "sol") }
      ⟨.ok (.dict [(toL "missing_info",
          .dict [(toL "critical", .list [.str (toL "时长")]), (toL "optional", .list [])])]),
       .error (.valueError (toL "qg")), .ok (.dict []), .ok (.dict [])⟩).2.2.2.1
     _ _ _ _ _ rfl rfl rfl rfl (by decide) rfl⟩

/-! ## String lemmas for the split protocol -/

namespace PyStr

/-- A list starts with itself. -/
theorem startswith_append_self : ∀ (p t : List Char), startswith p (p ++ t) = true
  | [], _ => rfl
  | c :: cs, t => by simp [startswith, startswith_append_self cs t]

/-- A prefix is no longer than the string. -/
theorem startswith_length : ∀ (p s : List Char), startswith p s = true → p.length ≤ s.length
  | [], s, _ => Nat.zero_le _
  | c :: cs, [], h => by simp [startswith] at h
  | c :: cs, x :: xs, h => by
    simp only [startswith, Bool.and_eq_true] at h
    simpa using startswith_length cs xs h.2

/-- A string avoiding `c` cannot start with `c :: w`. -/
theorem startswith_false_of_allne (c : Char) (w : List Char) :
    ∀ b : List Char, b.all (· != c) = true → startswith (c :: w) b = false
  | [], _ => rfl
  | x :: xs, h => by
    simp only [List.all_cons, Bool.and_eq_true, bne_iff_ne] at h
    simp [startswith, Ne.symm h.1]

/-- A mismatch inside the overlap refutes the prefix test for any tail. -/
theorem mismatch_startswith : ∀ (w w' t : List Char), mismatchB w w' = true →
    startswith w (w' ++ t) = false
  | [], w', t, h => by simp [mismatchB] at h
  | w, [], t, h => by cases w <;> simp [mismatchB] at h
  | a :: as, b :: bs, t, h => by
    simp only [mismatchB, Bool.or_eq_true, bne_iff_ne] at h
    rcases Decidable.em (a = b) with he | he
    · subst he
      have : mismatchB as bs = true := by
        rcases h with h | h
        · exact absurd rfl h
        · exact h
      simp [startswith, mismatch_startswith as bs t this]
    · simp [startswith, he]

/-- Scanning past characters different from the pattern head shifts the
match position. -/
theorem findIdx_append_allne (c : Char) (w : List Char) :
    ∀ (a t : List Char), a.all (· != c) = true →
    findIdx (c :: w) (a ++ t) = (findIdx (c :: w) t).map (· + a.length)
  | [], t, _ => by
    cases h : findIdx (c :: w) t <;> simp [h]
  | x :: xs, t, h => by
    simp only [List.all_cons, Bool.and_eq_true, bne_iff_ne] at h
    have hx : startswith (c :: w) (x :: (xs ++ t)) = false := by
      simp [startswith, Ne.symm h.1]
    rw [List.cons_append, findIdx, hx]
    rw [findIdx_append_allne c w xs t h.2]
    cases hf : findIdx (c :: w) t
    · simp [hf]
    · simp [hf]
      omega

/-- No occurrence of `c :: w` inside a `c`-free string. -/
theorem findIdx_none_of_allne (c : Char) (w a : List Char) (h : a.all (· != c) = true) :
    findIdx (c :: w) a = none := by
  have := findIdx_append_allne c w a [] h
  rw [List.append_nil] at this
  simp [findIdx] at this
  exact this

/-- The pattern is found at position 0 of itself. -/
theorem findIdx_self (c : Char) (w t : List Char) :
    findIdx (c :: w) ((c :: w) ++ t) = some 0 := by
  rw [List.cons_append, findIdx]
  rw [show startswith (c :: w) (c :: (w ++ t)) = true from by
    simpa [List.cons_append] using startswith_append_self (c :: w) t]
  rfl

/-- Passing a delimiter block whose word differs from the pattern word. -/
theorem findIdx_block (c : Char) (w w' t : List Char)
    (hw : w'.all (· != c) = true) (hm : startswith w (w' ++ t) = false) :
    findIdx (c :: w) ((c :: w') ++ t) =
      (findIdx (c :: w) t).map (· + (w'.length + 1)) := by
  rw [List.cons_append, findIdx]
  rw [show startswith (c :: w) (c :: (w' ++ t)) = false from by simp [startswith, hm]]
  rw [findIdx_append_allne c w w' t hw]
  cases hf : findIdx (c :: w) t
  · simp [hf]
  · simp [hf]
    omega

end PyStr

namespace PyStr

/-- A found occurrence fits inside the string. -/
theorem findIdx_bound : ∀ (sep s : List Char) (i : Nat), findIdx sep s = some i →
    i + sep.length ≤ s.length
  | sep, [], i, h => by
    by_cases hsep : sep.isEmpty <;> simp [findIdx, hsep] at h
    subst h
    simp [List.isEmpty_iff.mp hsep]
  | sep, x :: xs, i, h => by
    rw [findIdx] at h
    by_cases hsw : startswith sep (x :: xs)
    · rw [if_pos hsw] at h
      obtain rfl : (0 : Nat) = i := Option.some.inj h
      simpa using startswith_length sep (x :: xs) hsw
    · rw [if_neg hsw] at h
      cases hf : findIdx sep xs with
      | none => rw [hf] at h; simp at h
      | some j =>
        rw [hf] at h
        simp only [Option.map_some'] at h
        obtain rfl := Option.some.inj h
        have := findIdx_bound sep xs j hf
        simp only [List.length_cons]
        omega

/-- `splitFuel` is independent of the fuel once it exceeds the length. -/
theorem splitFuel_invar (sep : List Char) (hsep : sep ≠ []) :
    ∀ (n m : Nat) (s : List Char), s.length < n → s.length < m →
    splitFuel sep n s = splitFuel sep m s := by
  intro n
  induction n with
  | zero => intro m s h; omega
  | succ n ih =>
    intro m s hn hm
    cases m with
    | zero => omega
    | succ m =>
      rw [splitFuel, splitFuel]
      cases hf : findIdx sep s with
      | none => rfl
      | some i =>
        dsimp only
        have hb := findIdx_bound sep s i hf
        have hsl : 1 ≤ sep.length := by
          cases sep
          · exact absurd rfl hsep
          · simp
        have hlt : (s.drop (i + sep.length)).length < n := by
          simp only [List.length_drop]
          omega
        have hlt2 : (s.drop (i + sep.length)).length < m := by
          simp only [List.length_drop]
          omega
        rw [ih m (s.drop (i + sep.length)) hlt hlt2]

/-- `split` when the separator does not occur. -/
theorem split_of_none (sep s : List Char) (h : findIdx sep s = none) :
    split sep s = [s] := by
  rw [split, splitFuel, h]

/-- `split` peels the leftmost occurrence. -/
theorem split_cons (sep s : List Char) (i : Nat) (hsep : sep ≠ [])
    (h : findIdx sep s = some i) :
    split sep s = s.take i :: split sep (s.drop (i + sep.length)) := by
  have hb := findIdx_bound sep s i h
  have hsl : 1 ≤ sep.length := by
    cases sep
    · exact absurd rfl hsep
    · simp
  rw [split, splitFuel, h]
  dsimp only
  congr 1
  exact splitFuel_invar sep hsep _ _ _
    (by simp only [List.length_drop]; omega)
    (by simp only [List.length_drop]; omega)

/-- Splitting `A ++ sep ++ B` at the designated occurrence. -/
theorem split_two (sep A B : List Char) (hsep : sep ≠ [])
    (h : findIdx sep (A ++ (sep ++ B)) = some A.length)
    (hB : findIdx sep B = none) :
    split sep (A ++ (sep ++ B)) = [A, B] := by
  rw [split_cons sep _ A.length hsep h]
  congr 1
  · exact List.take_left A (sep ++ B)
  · rw [show A ++ (sep ++ B) = (A ++ sep) ++ B from by simp [List.append_assoc],
      show A.length + sep.length = (A ++ sep).length from by simp [List.length_append],
      List.drop_left]
    exact split_of_none sep B hB

/-- `replace` is the identity when the pattern does not occur. -/
theorem replace_noop (pat rep s : List Char) (h : findIdx pat s = none) :
    replace pat rep s = s := by
  rw [replace, split_of_none pat s h]
  simp [List.intercalate]

end PyStr

/-- Splitting a fence-led text on its own fence. -/
theorem split_fence (fw : List Char) (body tail : List Char)
    (hbody : body.all (· != btChar) = true)
    (hnone : PyStr.findIdx (btChar :: fw) tail = none) :
    PyStr.split (btChar :: fw) ((btChar :: fw) ++ (body ++ tail)) = [[], body ++ tail] := by
  have hfj : PyStr.findIdx (btChar :: fw) ((btChar :: fw) ++ (body ++ tail)) = some 0 :=
    PyStr.findIdx_self btChar fw (body ++ tail)
  have hnone1 : PyStr.findIdx (btChar :: fw) (body ++ tail) = none := by
    rw [PyStr.findIdx_append_allne btChar fw body tail hbody, hnone]
    rfl
  rw [PyStr.split_cons _ _ 0 (by simp) hfj]
  simp only [List.take_zero, Nat.zero_add]
  rw [List.drop_left]
  rw [PyStr.split_of_none _ _ hnone1]

/-- Splitting `body ++ ``` ` on the closing fence. -/
theorem split_fence_close (body : List Char) (hbody : body.all (· != btChar) = true) :
    PyStr.split (toL "```") (body ++ toL "```") = [body, []] := by
  have hfind : PyStr.findIdx (toL "```") (body ++ toL "```") = some body.length := by
    have hstep := PyStr.findIdx_append_allne btChar (toL "``") body (toL "```") hbody
    rw [show PyStr.findIdx (btChar :: toL "``") (toL "```") = some 0 from by decide] at hstep
    simpa using hstep
  rw [PyStr.split_cons _ _ body.length (by decide) hfind]
  congr 1
  · exact List.take_left body (toL "```")
  · rw [show body.length + (toL "```").length = (body ++ toL "```").length from by
      simp [List.length_append]]
    rw [List.drop_length]
    exact PyStr.split_of_none _ _ (by decide)

/-- C9 amended: for the feedback analyzer's fence-stripping extraction,
any backtick-free reply body wrapped in a single outer markdown fence
(` ```json ` or bare ` ``` `) parses exactly as the unwrapped body does. -/
theorem fence_strip_roundtrip (body : List Char) (h : body.all (· != btChar) = true) :
    FeedbackAnalyzer.parse_llm_response (toL "```json\n" ++ (body ++ toL "```")) =
      FeedbackAnalyzer.parse_llm_response body ∧
    FeedbackAnalyzer.parse_llm_response (toL "```\n" ++ (body ++ toL "```")) =
      FeedbackAnalyzer.parse_llm_response body := by
  have hb1 : PyStr.startswith (toL "```json\n") body = false :=
    PyStr.startswith_false_of_allne btChar (toL "``json\n") body h
  have hb2 : PyStr.startswith (toL "```\n") body = false :=
    PyStr.startswith_false_of_allne btChar (toL "``\n") body h
  have hw1 : PyStr.startswith (toL "```json\n") (toL "```json\n" ++ (body ++ toL "```")) =
      true := PyStr.startswith_append_self _ _
  have hw2a : PyStr.startswith (toL "```json\n") (toL "```\n" ++ (body ++ toL "```")) =
      false := PyStr.mismatch_startswith _ (toL "```\n") _ (by decide)
  have hw2b : PyStr.startswith (toL "```\n") (toL "```\n" ++ (body ++ toL "```")) = true :=
    PyStr.startswith_append_self _ _
  have hs1 : PyStr.split (toL "```json\n") (toL "```json\n" ++ (body ++ toL "```")) =
      [[], body ++ toL "```"] :=
    split_fence (toL "``json\n") body (toL "```") h (by decide)
  have hs2 : PyStr.split (toL "```\n") (toL "```\n" ++ (body ++ toL "```")) =
      [[], body ++ toL "```"] :=
    split_fence (toL "``\n") body (toL "```") h (by decide)
  have hc := split_fence_close body h
  constructor
  · rw [FeedbackAnalyzer.parse_llm_response, FeedbackAnalyzer.parse_llm_response]
    rw [hw1, hb1, hb2, hs1]
    simp only [if_true, Bool.false_eq_true, if_false,
      List.getD_cons_succ, List.getD_cons_zero, hc]
  · rw [FeedbackAnalyzer.parse_llm_response, FeedbackAnalyzer.parse_llm_response]
    rw [hw2a, hw2b, hb1, hb2, hs2]
    simp only [if_true, Bool.false_eq_true, if_false,
      List.getD_cons_succ, List.getD_cons_zero, hc]

theorem fence_strip_roundtrip_witness :
    FeedbackAnalyzer.parse_llm_response
        (toL "```json\n" ++ (toL "\x7b\"type\": \"POSITIVE\", \"response\": \"好的\"\x7d\n" ++ toL "```")) =
      FeedbackAnalyzer.parse_llm_response (toL "\x7b\"type\": \"POSITIVE\", \"response\": \"好的\"\x7d\n") ∧
    FeedbackAnalyzer.parse_llm_response
        (toL "```\n" ++ (toL "\x7b\"type\": \"POSITIVE\", \"response\": \"好的\"\x7d\n" ++ toL "```")) =
      FeedbackAnalyzer.parse_llm_response (toL "\x7b\"type\": \"POSITIVE\", \"response\": \"好的\"\x7d\n") :=
  fence_strip_roundtrip (toL "\x7b\"type\": \"POSITIVE\", \"response\": \"好的\"\x7d\n") (by decide)

/-- A clean segment avoids spaces. -/
theorem cleanSeg_space (x : List Char) (h : cleanSeg x = true) : x.all (· != ' ') = true := by
  simp only [cleanSeg, List.all_eq_true, Bool.and_eq_true] at h ⊢
  exact fun c hc => (h c hc).1

/-- A clean segment avoids hashes. -/
theorem cleanSeg_hash (x : List Char) (h : cleanSeg x = true) : x.all (· != '#') = true := by
  simp only [cleanSeg, List.all_eq_true, Bool.and_eq_true] at h ⊢
  exact fun c hc => (h c hc).2

/-- Pulling the tail out of `joinBlocks`. -/
theorem joinBlocks_append : ∀ (ps : List (List Char × List Char)) (tail : List Char),
    joinBlocks ps tail = joinBlocks ps [] ++ tail
  | [], tail => by simp [joinBlocks]
  | (w', t') :: rest, tail => by
    simp [joinBlocks, joinBlocks_append rest tail, List.append_assoc]

/-- Peeling the last block of `joinBlocks`. -/
theorem joinBlocks_concat : ∀ (ps : List (List Char × List Char)) (w' t' tail : List Char),
    joinBlocks (ps ++ [(w', t')]) tail = joinBlocks ps ((' ' :: w') ++ (t' ++ tail))
  | [], w', t', tail => by simp [joinBlocks]
  | (w0, t0) :: rest, w', t', tail => by
    simp [joinBlocks, joinBlocks_concat rest w' t' tail]

/-- The pattern `' ' :: w` does not start inside any block whose word
mismatches `w`, so `findIdx` over `joinBlocks` shifts to the tail. -/
theorem findIdx_joinBlocks (w : List Char) :
    ∀ (ps : List (List Char × List Char)) (tail : List Char),
    (∀ pr ∈ ps, mismatchB w pr.1 = true ∧ pr.1.all (· != ' ') = true ∧
      pr.2.all (· != ' ') = true) →
    PyStr.findIdx (' ' :: w) (joinBlocks ps tail) =
      (PyStr.findIdx (' ' :: w) tail).map (· + (joinBlocks ps []).length)
  | [], tail, _ => by
    cases hf : PyStr.findIdx (' ' :: w) tail <;> simp [joinBlocks, hf]
  | (w', t') :: rest, tail, h => by
    obtain ⟨hm, hw', ht'⟩ := h (w', t') (by simp)
    have hrest : ∀ pr ∈ rest, mismatchB w pr.1 = true ∧ pr.1.all (· != ' ') = true ∧
        pr.2.all (· != ' ') = true := fun pr hpr => h pr (by simp [hpr])
    have hstep1 : PyStr.findIdx (' ' :: w) ((' ' :: w') ++ (t' ++ joinBlocks rest tail)) =
        (PyStr.findIdx (' ' :: w) (t' ++ joinBlocks rest tail)).map (· + (w'.length + 1)) :=
      PyStr.findIdx_block ' ' w w' _ hw'
        (PyStr.mismatch_startswith w w' _ hm)
    have hstep2 : PyStr.findIdx (' ' :: w) (t' ++ joinBlocks rest tail) =
        (PyStr.findIdx (' ' :: w) (joinBlocks rest tail)).map (· + t'.length) :=
      PyStr.findIdx_append_allne ' ' w t' _ ht'
    have hstep3 := findIdx_joinBlocks w rest tail hrest
    show PyStr.findIdx (' ' :: w) ((' ' :: w') ++ (t' ++ joinBlocks rest tail)) = _
    rw [hstep1, hstep2, hstep3]
    cases hf : PyStr.findIdx (' ' :: w) tail
    · simp [hf]
    · simp [hf, joinBlocks, List.length_append]
      omega

/-- Splitting `p ++ blocks ++ sep ++ t` on `sep = ' ' :: w`. -/
theorem split_joinBlocks (w : List Char) (ps : List (List Char × List Char))
    (p t : List Char)
    (hp : p.all (· != ' ') = true)
    (h : ∀ pr ∈ ps, mismatchB w pr.1 = true ∧ pr.1.all (· != ' ') = true ∧
      pr.2.all (· != ' ') = true)
    (ht : t.all (· != ' ') = true) :
    PyStr.split (' ' :: w) (p ++ joinBlocks ps ((' ' :: w) ++ t)) =
      [p ++ joinBlocks ps [], t] := by
  have hfind : PyStr.findIdx (' ' :: w) (p ++ joinBlocks ps ((' ' :: w) ++ t)) =
      some ((p ++ joinBlocks ps []).length) := by
    rw [PyStr.findIdx_append_allne ' ' w p _ hp, findIdx_joinBlocks w ps _ h,
      PyStr.findIdx_self ' ' w t]
    simp [List.length_append]
    omega
  have hshape : p ++ joinBlocks ps ((' ' :: w) ++ t) =
      (p ++ joinBlocks ps []) ++ ((' ' :: w) ++ t) := by
    rw [joinBlocks_append ps ((' ' :: w) ++ t), List.append_assoc]
  rw [hshape] at hfind ⊢
  exact PyStr.split_two (' ' :: w) _ t (by simp) hfind
    (PyStr.findIdx_none_of_allne ' ' w t ht)

/-- Two-way unpacking succeeds on a two-element split. -/
theorem unpack2_of_split (sep s a b : List Char)
    (h : PyStr.split sep s = [a, b]) :
    ReportGenerator.unpack2 sep s = .ok (a, b) := by
  rw [ReportGenerator.unpack2, h]


/-- Packaging the per-block conditions for `split_joinBlocks`. -/
theorem blockCond (w w' t' : List Char) (hm : mismatchB w w' = true)
    (hw : w'.all (· != ' ') = true) (ht : t'.all (· != ' ') = true) :
    mismatchB w (w', t').1 = true ∧ ((w', t').1.all (· != ' ')) = true ∧
      ((w', t').2.all (· != ' ')) = true := ⟨hm, hw, ht⟩

/-- Two-way unpacking fails with the unpack `ValueError` when the separator
does not occur. -/
theorem unpack2_missing (sep s : List Char) (hnone : PyStr.findIdx sep s = none) :
    ReportGenerator.unpack2 sep s =
      .error (.valueError (toL "not enough values to unpack (expected 2, got 1)")) := by
  rw [ReportGenerator.unpack2, PyStr.split_of_none _ _ hnone]
  rfl

/-- The pattern `' ' :: w` occurs nowhere in `p ++ blocks ++ tail` when it
occurs nowhere in the tail and every block word mismatches `w`. -/
theorem findIdx_none_blocks (w : List Char) (ps : List (List Char × List Char))
    (p tail : List Char) (hp : p.all (· != ' ') = true)
    (h : ∀ pr ∈ ps, mismatchB w pr.1 = true ∧ pr.1.all (· != ' ') = true ∧
      pr.2.all (· != ' ') = true)
    (htail : PyStr.findIdx (' ' :: w) tail = none) :
    PyStr.findIdx (' ' :: w) (p ++ joinBlocks ps tail) = none := by
  rw [PyStr.findIdx_append_allne ' ' w p _ hp, findIdx_joinBlocks w ps tail h, htail]
  rfl

/-- First unpacking step over a block-structured reply. -/
theorem unpack2_first (w : List Char) (ps : List (List Char × List Char)) (p t : List Char)
    (hp : p.all (· != ' ') = true)
    (h : ∀ pr ∈ ps, mismatchB w pr.1 = true ∧ pr.1.all (· != ' ') = true ∧
      pr.2.all (· != ' ') = true)
    (ht : t.all (· != ' ') = true) :
    ReportGenerator.unpack2 (' ' :: w) (p ++ joinBlocks ps ((' ' :: w) ++ t)) =
      .ok (p ++ joinBlocks ps [], t) :=
  unpack2_of_split _ _ _ _ (split_joinBlocks w ps p t hp h ht)

/-- Peeling the last delimiter block in a later unpacking step. -/
theorem unpack2_peel (w' : List Char) (ps : List (List Char × List Char)) (p t' : List Char)
    (hp : p.all (· != ' ') = true)
    (h : ∀ pr ∈ ps, mismatchB w' pr.1 = true ∧ pr.1.all (· != ' ') = true ∧
      pr.2.all (· != ' ') = true)
    (ht : t'.all (· != ' ') = true) :
    ReportGenerator.unpack2 (' ' :: w') (p ++ joinBlocks (ps ++ [(w', t')]) []) =
      .ok (p ++ joinBlocks ps [], t') := by
  rw [joinBlocks_concat, List.append_nil]
  exact unpack2_of_split _ _ _ _ (split_joinBlocks w' ps p t' hp h ht)

/-- The final unpacking step, on the single remaining block. -/
theorem unpack2_last (w' p t' : List Char) (hp : p.all (· != ' ') = true)
    (ht : t'.all (· != ' ') = true) :
    ReportGenerator.unpack2 (' ' :: w') (p ++ joinBlocks [(w', t')] []) = .ok (p, t') := by
  have h := unpack2_peel w' [] p t' hp
    (fun pr hpr => absurd hpr (List.not_mem_nil pr)) ht
  simpa [joinBlocks] using h

/-- `joinBlocks` output avoids `#` when all its pieces do. -/
theorem all_hash_joinBlocks : ∀ (ps : List (List Char × List Char)) (tail : List Char),
    (∀ pr ∈ ps, pr.1.all (· != '#') = true ∧ pr.2.all (· != '#') = true) →
    tail.all (· != '#') = true → (joinBlocks ps tail).all (· != '#') = true
  | [], tail, _, htail => htail
  | (w', t') :: rest, tail, h, htail => by
    obtain ⟨hw, ht⟩ := h (w', t') (by simp)
    have hrest := all_hash_joinBlocks rest tail (fun pr hpr => h pr (by simp [hpr])) htail
    simp [joinBlocks, List.all_append, hw, ht, hrest]

/-- `'###'` removal is the identity on a hash-free block-structured reply. -/
theorem replace_hash_noop_blocks (ps : List (List Char × List Char)) (p tail : List Char)
    (hp : p.all (· != '#') = true)
    (h : ∀ pr ∈ ps, pr.1.all (· != '#') = true ∧ pr.2.all (· != '#') = true)
    (htail : tail.all (· != '#') = true) :
    PyStr.replace (toL "###") [] (p ++ joinBlocks ps tail) = p ++ joinBlocks ps tail :=
  PyStr.replace_noop _ _ _ (PyStr.findIdx_none_of_allne '#' (toL "##") _
    (by simp only [List.all_append, Bool.and_eq_true]
        exact ⟨hp, all_hash_joinBlocks ps tail h htail⟩))

/-- Packaging the per-block hash-freeness conditions. -/
theorem blockCondH (w' t' : List Char) (hw : w'.all (· != '#') = true)
    (ht : t'.all (· != '#') = true) :
    ((w', t').1.all (· != '#')) = true ∧ ((w', t').2.all (· != '#')) = true := ⟨hw, ht⟩

/-- C6 amended: a final narration reply that (after `'###'` removal) lacks any
one of the six delimiter strings makes the Report Compiler raise a plain
`ValueError` from list unpacking (no `ContractViolation` type exists):
conjunct one covers an arbitrary reply lacking `' 结语'`, and the six
following conjuncts delete each delimiter in turn from a block-structured
reply, failing at that delimiter's own unpacking step; on a well-formed
reply the sequential right-to-left split — closing `结语` first, complaint
`用户主诉` last — recovers exactly the six section bodies. -/
theorem report_split_missing_and_order (content p t1 t2 t3 t4 t5 t6 : List Char)
    (hmiss : PyStr.containsSub (toL " 结语") (PyStr.replace (toL "###") [] content) = false)
    (hp : cleanSeg p = true) (h1 : cleanSeg t1 = true) (h2 : cleanSeg t2 = true)
    (h3 : cleanSeg t3 = true) (h4 : cleanSeg t4 = true) (h5 : cleanSeg t5 = true)
    (h6 : cleanSeg t6 = true) :
    ReportGenerator.splitSections content =
      .error (.valueError (toL "not enough values to unpack (expected 2, got 1)")) ∧
    ReportGenerator.splitSections
        (p ++ (toL " 用户问题与诉求" ++ (t2 ++ (toL " 问题分析" ++ (t3 ++ (toL " 权威解释" ++
          (t4 ++ (toL " 解决方案" ++ (t5 ++ (toL " 结语" ++ t6)))))))))) =
      .error (.valueError (toL "not enough values to unpack (expected 2, got 1)")) ∧
    ReportGenerator.splitSections
        (p ++ (toL " 用户主诉" ++ (t1 ++ (toL " 问题分析" ++ (t3 ++ (toL " 权威解释" ++
          (t4 ++ (toL " 解决方案" ++ (t5 ++ (toL " 结语" ++ t6)))))))))) =
      .error (.valueError (toL "not enough values to unpack (expected 2, got 1)")) ∧
    ReportGenerator.splitSections
        (p ++ (toL " 用户主诉" ++ (t1 ++ (toL " 用户问题与诉求" ++ (t2 ++ (toL " 权威解释" ++
          (t4 ++ (toL " 解决方案" ++ (t5 ++ (toL " 结语" ++ t6)))))))))) =
      .error (.valueError (toL "not enough values to unpack (expected 2, got 1)")) ∧
    ReportGenerator.splitSections
        (p ++ (toL " 用户主诉" ++ (t1 ++ (toL " 用户问题与诉求" ++ (t2 ++ (toL " 问题分析" ++
          (t3 ++ (toL " 解决方案" ++ (t5 ++ (toL " 结语" ++ t6)))))))))) =
      .error (.valueError (toL "not enough values to unpack (expected 2, got 1)")) ∧
    ReportGenerator.splitSections
        (p ++ (toL " 用户主诉" ++ (t1 ++ (toL " 用户问题与诉求" ++ (t2 ++ (toL " 问题分析" ++
          (t3 ++ (toL " 权威解释" ++ (t4 ++ (toL " 结语" ++ t6)))))))))) =
      .error (.valueError (toL "not enough values to unpack (expected 2, got 1)")) ∧
    ReportGenerator.splitSections
        (p ++ (toL " 用户主诉" ++ (t1 ++ (toL " 用户问题与诉求" ++ (t2 ++ (toL " 问题分析" ++
          (t3 ++ (toL " 权威解释" ++ (t4 ++ (toL " 解决方案" ++ t5)))))))))) =
      .error (.valueError (toL "not enough values to unpack (expected 2, got 1)")) ∧
    ReportGenerator.splitSections
        (p ++ (toL " 用户主诉" ++ (t1 ++ (toL " 用户问题与诉求" ++ (t2 ++ (toL " 问题分析" ++
          (t3 ++ (toL " 权威解释" ++ (t4 ++ (toL " 解决方案" ++ (t5 ++ (toL " 结语" ++ t6)))))))))))) =
      .ok ⟨t1, t2, t3, t4, t5, t6⟩ := by
  have hpS := cleanSeg_space p hp
  have h1S := cleanSeg_space t1 h1
  have h2S := cleanSeg_space t2 h2
  have h3S := cleanSeg_space t3 h3
  have h4S := cleanSeg_space t4 h4
  have h5S := cleanSeg_space t5 h5
  have h6S := cleanSeg_space t6 h6
  have cond6 : ∀ pr ∈ ([(toL "用户主诉", t1), (toL "用户问题与诉求", t2), (toL "问题分析", t3),
      (toL "权威解释", t4), (toL "解决方案", t5)] : List (List Char × List Char)),
      mismatchB (toL "结语") pr.1 = true ∧ pr.1.all (· != ' ') = true ∧
        pr.2.all (· != ' ') = true := by
    intro pr hpr
    simp only [List.mem_cons, List.not_mem_nil, or_false] at hpr
    rcases hpr with rfl | rfl | rfl | rfl | rfl
    exacts [blockCond _ _ _ (by decide) (by decide) h1S,
      blockCond _ _ _ (by decide) (by decide) h2S,
      blockCond _ _ _ (by decide) (by decide) h3S,
      blockCond _ _ _ (by decide) (by decide) h4S,
      blockCond _ _ _ (by decide) (by decide) h5S]
  have cond5 : ∀ pr ∈ ([(toL "用户主诉", t1), (toL "用户问题与诉求", t2), (toL "问题分析", t3),
      (toL "权威解释", t4)] : List (List Char × List Char)),
      mismatchB (toL "解决方案") pr.1 = true ∧ pr.1.all (· != ' ') = true ∧
        pr.2.all (· != ' ') = true := by
    intro pr hpr
    simp only [List.mem_cons, List.not_mem_nil, or_false] at hpr
    rcases hpr with rfl | rfl | rfl | rfl
    exacts [blockCond _ _ _ (by decide) (by decide) h1S,
      blockCond _ _ _ (by decide) (by decide) h2S,
      blockCond _ _ _ (by decide) (by decide) h3S,
      blockCond _ _ _ (by decide) (by decide) h4S]
  have cond4 : ∀ pr ∈ ([(toL "用户主诉", t1), (toL "用户问题与诉求", t2),
      (toL "问题分析", t3)] : List (List Char × List Char)),
      mismatchB (toL "权威解释") pr.1 = true ∧ pr.1.all (· != ' ') = true ∧
        pr.2.all (· != ' ') = true := by
    intro pr hpr
    simp only [List.mem_cons, List.not_mem_nil, or_false] at hpr
    rcases hpr with rfl | rfl | rfl
    exacts [blockCond _ _ _ (by decide) (by decide) h1S,
      blockCond _ _ _ (by decide) (by decide) h2S,
      blockCond _ _ _ (by decide) (by decide) h3S]
  have cond3 : ∀ pr ∈ ([(toL "用户主诉", t1),
      (toL "用户问题与诉求", t2)] : List (List Char × List Char)),
      mismatchB (toL "问题分析") pr.1 = true ∧ pr.1.all (· != ' ') = true ∧
        pr.2.all (· != ' ') = true := by
    intro pr hpr
    simp only [List.mem_cons, List.not_mem_nil, or_false] at hpr
    rcases hpr with rfl | rfl
    exacts [blockCond _ _ _ (by decide) (by decide) h1S,
      blockCond _ _ _ (by decide) (by decide) h2S]
  have cond2 : ∀ pr ∈ ([(toL "用户主诉", t1)] : List (List Char × List Char)),
      mismatchB (toL "用户问题与诉求") pr.1 = true ∧ pr.1.all (· != ' ') = true ∧
        pr.2.all (· != ' ') = true := by
    intro pr hpr
    simp only [List.mem_cons, List.not_mem_nil, or_false] at hpr
    rcases hpr with rfl
    exact blockCond _ _ _ (by decide) (by decide) h1S
  have condH : ∀ pr ∈ ([(toL "用户主诉", t1), (toL "用户问题与诉求", t2), (toL "问题分析", t3),
      (toL "权威解释", t4), (toL "解决方案", t5)] : List (List Char × List Char)),
      pr.1.all (· != '#') = true ∧ pr.2.all (· != '#') = true := by
    intro pr hpr
    simp only [List.mem_cons, List.not_mem_nil, or_false] at hpr
    rcases hpr with rfl | rfl | rfl | rfl | rfl
    exacts [blockCondH _ _ (by decide) (cleanSeg_hash t1 h1),
      blockCondH _ _ (by decide) (cleanSeg_hash t2 h2),
      blockCondH _ _ (by decide) (cleanSeg_hash t3 h3),
      blockCondH _ _ (by decide) (cleanSeg_hash t4 h4),
      blockCondH _ _ (by decide) (cleanSeg_hash t5 h5)]
  have htail6H : ((' ' :: toL "结语") ++ t6).all (· != '#') = true := by
    simp only [List.all_append, Bool.and_eq_true]
    exact ⟨by decide, cleanSeg_hash t6 h6⟩
  have htail5H : ((' ' :: toL "解决方案") ++ t5).all (· != '#') = true := by
    simp only [List.all_append, Bool.and_eq_true]
    exact ⟨by decide, cleanSeg_hash t5 h5⟩
  refine ⟨?_, ?_, ?_, ?_, ?_, ?_, ?_, ?_⟩
  · have hfid : PyStr.findIdx (toL " 结语") (PyStr.replace (toL "###") [] content) = none := by
      cases hf : PyStr.findIdx (toL " 结语") (PyStr.replace (toL "###") [] content) with
      | none => rfl
      | some i =>
        rw [PyStr.containsSub, hf] at hmiss
        simp at hmiss
    rw [ReportGenerator.splitSections, ReportGenerator.unpack2,
      PyStr.split_of_none _ _ hfid]
    rfl
  · -- complaint delimiter `' 用户主诉'` deleted: the last unpacking step fails
    show ReportGenerator.splitSections
        (p ++ joinBlocks [(toL "用户问题与诉求", t2), (toL "问题分析", t3),
          (toL "权威解释", t4), (toL "解决方案", t5)] ((' ' :: toL "结语") ++ t6)) =
      .error (.valueError (toL "not enough values to unpack (expected 2, got 1)"))
    have hrepl := replace_hash_noop_blocks
      [(toL "用户问题与诉求", t2), (toL "问题分析", t3), (toL "权威解释", t4), (toL "解决方案", t5)]
      p ((' ' :: toL "结语") ++ t6) (cleanSeg_hash p hp)
      (fun pr hpr => condH pr (by
        simp only [List.mem_cons, List.not_mem_nil, or_false] at hpr ⊢; tauto)) htail6H
    have e1 : ReportGenerator.unpack2 (toL " 结语")
        (p ++ joinBlocks [(toL "用户问题与诉求", t2), (toL "问题分析", t3),
          (toL "权威解释", t4), (toL "解决方案", t5)] ((' ' :: toL "结语") ++ t6)) =
        .ok (p ++ joinBlocks [(toL "用户问题与诉求", t2), (toL "问题分析", t3),
          (toL "权威解释", t4), (toL "解决方案", t5)] [], t6) :=
      unpack2_first (toL "结语") _ p t6 hpS
        (fun pr hpr => cond6 pr (by
          simp only [List.mem_cons, List.not_mem_nil, or_false] at hpr ⊢; tauto)) h6S
    have e2 : ReportGenerator.unpack2 (toL " 解决方案")
        (p ++ joinBlocks [(toL "用户问题与诉求", t2), (toL "问题分析", t3),
          (toL "权威解释", t4), (toL "解决方案", t5)] []) =
        .ok (p ++ joinBlocks [(toL "用户问题与诉求", t2), (toL "问题分析", t3),
          (toL "权威解释", t4)] [], t5) :=
      unpack2_peel (toL "解决方案") [(toL "用户问题与诉求", t2), (toL "问题分析", t3),
          (toL "权威解释", t4)] p t5 hpS
        (fun pr hpr => cond5 pr (by
          simp only [List.mem_cons, List.not_mem_nil, or_false] at hpr ⊢; tauto)) h5S
    have e3 : ReportGenerator.unpack2 (toL " 权威解释")
        (p ++ joinBlocks [(toL "用户问题与诉求", t2), (toL "问题分析", t3),
          (toL "权威解释", t4)] []) =
        .ok (p ++ joinBlocks [(toL "用户问题与诉求", t2), (toL "问题分析", t3)] [], t4) :=
      unpack2_peel (toL "权威解释") [(toL "用户问题与诉求", t2), (toL "问题分析", t3)] p t4 hpS
        (fun pr hpr => cond4 pr (by
          simp only [List.mem_cons, List.not_mem_nil, or_false] at hpr ⊢; tauto)) h4S
    have e4 : ReportGenerator.unpack2 (toL " 问题分析")
        (p ++ joinBlocks [(toL "用户问题与诉求", t2), (toL "问题分析", t3)] []) =
        .ok (p ++ joinBlocks [(toL "用户问题与诉求", t2)] [], t3) :=
      unpack2_peel (toL "问题分析") [(toL "用户问题与诉求", t2)] p t3 hpS
        (fun pr hpr => cond3 pr (by
          simp only [List.mem_cons, List.not_mem_nil, or_false] at hpr ⊢; tauto)) h3S
    have e5 : ReportGenerator.unpack2 (toL " 用户问题与诉求")
        (p ++ joinBlocks [(toL "用户问题与诉求", t2)] []) = .ok (p, t2) :=
      unpack2_last (toL "用户问题与诉求") p t2 hpS h2S
    have e6 : ReportGenerator.unpack2 (toL " 用户主诉") p =
        .error (.valueError (toL "not enough values to unpack (expected 2, got 1)")) :=
      unpack2_missing _ _ (PyStr.findIdx_none_of_allne ' ' (toL "用户主诉") p hpS)
    rw [ReportGenerator.splitSections, hrepl, e1]
    simp only [pybind_ok]
    rw [e2]
    simp only [pybind_ok]
    rw [e3]
    simp only [pybind_ok]
    rw [e4]
    simp only [pybind_ok]
    rw [e5]
    simp only [pybind_ok]
    rw [e6]
    simp only [pybind_err]
  · -- requests delimiter `' 用户问题与诉求'` deleted: the fifth unpacking step fails
    show ReportGenerator.splitSections
        (p ++ joinBlocks [(toL "用户主诉", t1), (toL "问题分析", t3),
          (toL "权威解释", t4), (toL "解决方案", t5)] ((' ' :: toL "结语") ++ t6)) =
      .error (.valueError (toL "not enough values to unpack (expected 2, got 1)"))
    have hrepl := replace_hash_noop_blocks
      [(toL "用户主诉", t1), (toL "问题分析", t3), (toL "权威解释", t4), (toL "解决方案", t5)]
      p ((' ' :: toL "结语") ++ t6) (cleanSeg_hash p hp)
      (fun pr hpr => condH pr (by
        simp only [List.mem_cons, List.not_mem_nil, or_false] at hpr ⊢; tauto)) htail6H
    have e1 : ReportGenerator.unpack2 (toL " 结语")
        (p ++ joinBlocks [(toL "用户主诉", t1), (toL "问题分析", t3),
          (toL "权威解释", t4), (toL "解决方案", t5)] ((' ' :: toL "结语") ++ t6)) =
        .ok (p ++ joinBlocks [(toL "用户主诉", t1), (toL "问题分析", t3),
          (toL "权威解释", t4), (toL "解决方案", t5)] [], t6) :=
      unpack2_first (toL "结语") _ p t6 hpS
        (fun pr hpr => cond6 pr (by
          simp only [List.mem_cons, List.not_mem_nil, or_false] at hpr ⊢; tauto)) h6S
    have e2 : ReportGenerator.unpack2 (toL " 解决方案")
        (p ++ joinBlocks [(toL "用户主诉", t1), (toL "问题分析", t3),
          (toL "权威解释", t4), (toL "解决方案", t5)] []) =
        .ok (p ++ joinBlocks [(toL "用户主诉", t1), (toL "问题分析", t3),
          (toL "权威解释", t4)] [], t5) :=
      unpack2_peel (toL "解决方案") [(toL "用户主诉", t1), (toL "问题分析", t3),
          (toL "权威解释", t4)] p t5 hpS
        (fun pr hpr => cond5 pr (by
          simp only [List.mem_cons, List.not_mem_nil, or_false] at hpr ⊢; tauto)) h5S
    have e3 : ReportGenerator.unpack2 (toL " 权威解释")
        (p ++ joinBlocks [(toL "用户主诉", t1), (toL "问题分析", t3),
          (toL "权威解释", t4)] []) =
        .ok (p ++ joinBlocks [(toL "用户主诉", t1), (toL "问题分析", t3)] [], t4) :=
      unpack2_peel (toL "权威解释") [(toL "用户主诉", t1), (toL "问题分析", t3)] p t4 hpS
        (fun pr hpr => cond4 pr (by
          simp only [List.mem_cons, List.not_mem_nil, or_false] at hpr ⊢; tauto)) h4S
    have e4 : ReportGenerator.unpack2 (toL " 问题分析")
        (p ++ joinBlocks [(toL "用户主诉", t1), (toL "问题分析", t3)] []) =
        .ok (p ++ joinBlocks [(toL "用户主诉", t1)] [], t3) :=
      unpack2_peel (toL "问题分析") [(toL "用户主诉", t1)] p t3 hpS
        (fun pr hpr => cond3 pr (by
          simp only [List.mem_cons, List.not_mem_nil, or_false] at hpr ⊢; tauto)) h3S
    have e5 : ReportGenerator.unpack2 (toL " 用户问题与诉求")
        (p ++ joinBlocks [(toL "用户主诉", t1)] []) =
        .error (.valueError (toL "not enough values to unpack (expected 2, got 1)")) :=
      unpack2_missing _ _ (findIdx_none_blocks (toL "用户问题与诉求")
        [(toL "用户主诉", t1)] p [] hpS cond2 rfl)
    rw [ReportGenerator.splitSections, hrepl, e1]
    simp only [pybind_ok]
    rw [e2]
    simp only [pybind_ok]
    rw [e3]
    simp only [pybind_ok]
    rw [e4]
    simp only [pybind_ok]
    rw [e5]
    simp only [pybind_err]
  · -- analysis delimiter `' 问题分析'` deleted: the fourth unpacking step fails
    show ReportGenerator.splitSections
        (p ++ joinBlocks [(toL "用户主诉", t1), (toL "用户问题与诉求", t2),
          (toL "权威解释", t4), (toL "解决方案", t5)] ((' ' :: toL "结语") ++ t6)) =
      .error (.valueError (toL "not enough values to unpack (expected 2, got 1)"))
    have hrepl := replace_hash_noop_blocks
      [(toL "用户主诉", t1), (toL "用户问题与诉求", t2), (toL "权威解释", t4), (toL "解决方案", t5)]
      p ((' ' :: toL "结语") ++ t6) (cleanSeg_hash p hp)
      (fun pr hpr => condH pr (by
        simp only [List.mem_cons, List.not_mem_nil, or_false] at hpr ⊢; tauto)) htail6H
    have e1 : ReportGenerator.unpack2 (toL " 结语")
        (p ++ joinBlocks [(toL "用户主诉", t1), (toL "用户问题与诉求", t2),
          (toL "权威解释", t4), (toL "解决方案", t5)] ((' ' :: toL "结语") ++ t6)) =
        .ok (p ++ joinBlocks [(toL "用户主诉", t1), (toL "用户问题与诉求", t2),
          (toL "权威解释", t4), (toL "解决方案", t5)] [], t6) :=
      unpack2_first (toL "结语") _ p t6 hpS
        (fun pr hpr => cond6 pr (by
          simp only [List.mem_cons, List.not_mem_nil, or_false] at hpr ⊢; tauto)) h6S
    have e2 : ReportGenerator.unpack2 (toL " 解决方案")
        (p ++ joinBlocks [(toL "用户主诉", t1), (toL "用户问题与诉求", t2),
          (toL "权威解释", t4), (toL "解决方案", t5)] []) =
        .ok (p ++ joinBlocks [(toL "用户主诉", t1), (toL "用户问题与诉求", t2),
          (toL "权威解释", t4)] [], t5) :=
      unpack2_peel (toL "解决方案") [(toL "用户主诉", t1), (toL "用户问题与诉求", t2),
          (toL "权威解释", t4)] p t5 hpS
        (fun pr hpr => cond5 pr (by
          simp only [List.mem_cons, List.not_mem_nil, or_false] at hpr ⊢; tauto)) h5S
    have e3 : ReportGenerator.unpack2 (toL " 权威解释")
        (p ++ joinBlocks [(toL "用户主诉", t1), (toL "用户问题与诉求", t2),
          (toL "权威解释", t4)] []) =
        .ok (p ++ joinBlocks [(toL "用户主诉", t1), (toL "用户问题与诉求", t2)] [], t4) :=
      unpack2_peel (toL "权威解释") [(toL "用户主诉", t1), (toL "用户问题与诉求", t2)] p t4 hpS
        (fun pr hpr => cond4 pr (by
          simp only [List.mem_cons, List.not_mem_nil, or_false] at hpr ⊢; tauto)) h4S
    have e4 : ReportGenerator.unpack2 (toL " 问题分析")
        (p ++ joinBlocks [(toL "用户主诉", t1), (toL "用户问题与诉求", t2)] []) =
        .error (.valueError (toL "not enough values to unpack (expected 2, got 1)")) :=
      unpack2_missing _ _ (findIdx_none_blocks (toL "问题分析")
        [(toL "用户主诉", t1), (toL "用户问题与诉求", t2)] p [] hpS cond3 rfl)
    rw [ReportGenerator.splitSections, hrepl, e1]
    simp only [pybind_ok]
    rw [e2]
    simp only [pybind_ok]
    rw [e3]
    simp only [pybind_ok]
    rw [e4]
    simp only [pybind_err]
  · -- explanation delimiter `' 权威解释'` deleted: the third unpacking step fails
    show ReportGenerator.splitSections
        (p ++ joinBlocks [(toL "用户主诉", t1), (toL "用户问题与诉求", t2),
          (toL "问题分析", t3), (toL "解决方案", t5)] ((' ' :: toL "结语") ++ t6)) =
      .error (.valueError (toL "not enough values to unpack (expected 2, got 1)"))
    have hrepl := replace_hash_noop_blocks
      [(toL "用户主诉", t1), (toL "用户问题与诉求", t2), (toL "问题分析", t3), (toL "解决方案", t5)]
      p ((' ' :: toL "结语") ++ t6) (cleanSeg_hash p hp)
      (fun pr hpr => condH pr (by
        simp only [List.mem_cons, List.not_mem_nil, or_false] at hpr ⊢; tauto)) htail6H
    have e1 : ReportGenerator.unpack2 (toL " 结语")
        (p ++ joinBlocks [(toL "用户主诉", t1), (toL "用户问题与诉求", t2),
          (toL "问题分析", t3), (toL "解决方案", t5)] ((' ' :: toL "结语") ++ t6)) =
        .ok (p ++ joinBlocks [(toL "用户主诉", t1), (toL "用户问题与诉求", t2),
          (toL "问题分析", t3), (toL "解决方案", t5)] [], t6) :=
      unpack2_first (toL "结语") _ p t6 hpS
        (fun pr hpr => cond6 pr (by
          simp only [List.mem_cons, List.not_mem_nil, or_false] at hpr ⊢; tauto)) h6S
    have e2 : ReportGenerator.unpack2 (toL " 解决方案")
        (p ++ joinBlocks [(toL "用户主诉", t1), (toL "用户问题与诉求", t2),
          (toL "问题分析", t3), (toL "解决方案", t5)] []) =
        .ok (p ++ joinBlocks [(toL "用户主诉", t1), (toL "用户问题与诉求", t2),
          (toL "问题分析", t3)] [], t5) :=
      unpack2_peel (toL "解决方案") [(toL "用户主诉", t1), (toL "用户问题与诉求", t2),
          (toL "问题分析", t3)] p t5 hpS
        (fun pr hpr => cond5 pr (by
          simp only [List.mem_cons, List.not_mem_nil, or_false] at hpr ⊢; tauto)) h5S
    have e3 : ReportGenerator.unpack2 (toL " 权威解释")
        (p ++ joinBlocks [(toL "用户主诉", t1), (toL "用户问题与诉求", t2),
          (toL "问题分析", t3)] []) =
        .error (.valueError (toL "not enough values to unpack (expected 2, got 1)")) :=
      unpack2_missing _ _ (findIdx_none_blocks (toL "权威解释")
        [(toL "用户主诉", t1), (toL "用户问题与诉求", t2), (toL "问题分析", t3)] p [] hpS cond4 rfl)
    rw [ReportGenerator.splitSections, hrepl, e1]
    simp only [pybind_ok]
    rw [e2]
    simp only [pybind_ok]
    rw [e3]
    simp only [pybind_err]
  · -- solution delimiter `' 解决方案'` deleted: the second unpacking step fails
    show ReportGenerator.splitSections
        (p ++ joinBlocks [(toL "用户主诉", t1), (toL "用户问题与诉求", t2),
          (toL "问题分析", t3), (toL "权威解释", t4)] ((' ' :: toL "结语") ++ t6)) =
      .error (.valueError (toL "not enough values to unpack (expected 2, got 1)"))
    have hrepl := replace_hash_noop_blocks
      [(toL "用户主诉", t1), (toL "用户问题与诉求", t2), (toL "问题分析", t3), (toL "权威解释", t4)]
      p ((' ' :: toL "结语") ++ t6) (cleanSeg_hash p hp)
      (fun pr hpr => condH pr (by
        simp only [List.mem_cons, List.not_mem_nil, or_false] at hpr ⊢; tauto)) htail6H
    have e1 : ReportGenerator.unpack2 (toL " 结语")
        (p ++ joinBlocks [(toL "用户主诉", t1), (toL "用户问题与诉求", t2),
          (toL "问题分析", t3), (toL "权威解释", t4)] ((' ' :: toL "结语") ++ t6)) =
        .ok (p ++ joinBlocks [(toL "用户主诉", t1), (toL "用户问题与诉求", t2),
          (toL "问题分析", t3), (toL "权威解释", t4)] [], t6) :=
      unpack2_first (toL "结语") _ p t6 hpS
        (fun pr hpr => cond6 pr (by
          simp only [List.mem_cons, List.not_mem_nil, or_false] at hpr ⊢; tauto)) h6S
    have e2 : ReportGenerator.unpack2 (toL " 解决方案")
        (p ++ joinBlocks [(toL "用户主诉", t1), (toL "用户问题与诉求", t2),
          (toL "问题分析", t3), (toL "权威解释", t4)] []) =
        .error (.valueError (toL "not enough values to unpack (expected 2, got 1)")) :=
      unpack2_missing _ _ (findIdx_none_blocks (toL "解决方案")
        [(toL "用户主诉", t1), (toL "用户问题与诉求", t2), (toL "问题分析", t3),
          (toL "权威解释", t4)] p [] hpS cond5 rfl)
    rw [ReportGenerator.splitSections, hrepl, e1]
    simp only [pybind_ok]
    rw [e2]
    simp only [pybind_err]
  · -- closing delimiter `' 结语'` deleted: the first unpacking step fails
    show ReportGenerator.splitSections
        (p ++ joinBlocks [(toL "用户主诉", t1), (toL "用户问题与诉求", t2),
          (toL "问题分析", t3), (toL "权威解释", t4)] ((' ' :: toL "解决方案") ++ t5)) =
      .error (.valueError (toL "not enough values to unpack (expected 2, got 1)"))
    have hrepl := replace_hash_noop_blocks
      [(toL "用户主诉", t1), (toL "用户问题与诉求", t2), (toL "问题分析", t3), (toL "权威解释", t4)]
      p ((' ' :: toL "解决方案") ++ t5) (cleanSeg_hash p hp)
      (fun pr hpr => condH pr (by
        simp only [List.mem_cons, List.not_mem_nil, or_false] at hpr ⊢; tauto)) htail5H
    have htailN : PyStr.findIdx (' ' :: toL "结语") ((' ' :: toL "解决方案") ++ t5) = none := by
      rw [PyStr.findIdx_block ' ' (toL "结语") (toL "解决方案") t5 (by decide)
          (PyStr.mismatch_startswith _ _ _ (by decide)),
        PyStr.findIdx_none_of_allne ' ' (toL "结语") t5 h5S]
      rfl
    have e1 : ReportGenerator.unpack2 (toL " 结语")
        (p ++ joinBlocks [(toL "用户主诉", t1), (toL "用户问题与诉求", t2),
          (toL "问题分析", t3), (toL "权威解释", t4)] ((' ' :: toL "解决方案") ++ t5)) =
        .error (.valueError (toL "not enough values to unpack (expected 2, got 1)")) :=
      unpack2_missing _ _ (findIdx_none_blocks (toL "结语")
        [(toL "用户主诉", t1), (toL "用户问题与诉求", t2), (toL "问题分析", t3),
          (toL "权威解释", t4)] p ((' ' :: toL "解决方案") ++ t5) hpS
        (fun pr hpr => cond6 pr (by
          simp only [List.mem_cons, List.not_mem_nil, or_false] at hpr ⊢; tauto)) htailN)
    rw [ReportGenerator.splitSections, hrepl, e1]
    simp only [pybind_err]
  · -- all six delimiters present: the split recovers the six section bodies
    show ReportGenerator.splitSections
        (p ++ joinBlocks
          [(toL "用户主诉", t1), (toL "用户问题与诉求", t2), (toL "问题分析", t3),
           (toL "权威解释", t4), (toL "解决方案", t5)] ((' ' :: toL "结语") ++ t6)) =
      .ok ⟨t1, t2, t3, t4, t5, t6⟩
    have hrepl := replace_hash_noop_blocks
      [(toL "用户主诉", t1), (toL "用户问题与诉求", t2), (toL "问题分析", t3),
       (toL "权威解释", t4), (toL "解决方案", t5)]
      p ((' ' :: toL "结语") ++ t6) (cleanSeg_hash p hp) condH htail6H
    have hu6 : ReportGenerator.unpack2 (toL " 结语")
        (p ++ joinBlocks
          [(toL "用户主诉", t1), (toL "用户问题与诉求", t2), (toL "问题分析", t3),
           (toL "权威解释", t4), (toL "解决方案", t5)] ((' ' :: toL "结语") ++ t6)) =
        .ok (p ++ joinBlocks
          [(toL "用户主诉", t1), (toL "用户问题与诉求", t2), (toL "问题分析", t3),
           (toL "权威解释", t4), (toL "解决方案", t5)] [], t6) :=
      unpack2_first (toL "结语") _ p t6 hpS cond6 h6S
    have hu5 : ReportGenerator.unpack2 (toL " 解决方案")
        (p ++ joinBlocks
          [(toL "用户主诉", t1), (toL "用户问题与诉求", t2), (toL "问题分析", t3),
           (toL "权威解释", t4), (toL "解决方案", t5)] []) =
        .ok (p ++ joinBlocks
          [(toL "用户主诉", t1), (toL "用户问题与诉求", t2), (toL "问题分析", t3),
           (toL "权威解释", t4)] [], t5) :=
      unpack2_peel (toL "解决方案") [(toL "用户主诉", t1), (toL "用户问题与诉求", t2),
          (toL "问题分析", t3), (toL "权威解释", t4)] p t5 hpS cond5 h5S
    have hu4 : ReportGenerator.unpack2 (toL " 权威解释")
        (p ++ joinBlocks
          [(toL "用户主诉", t1), (toL "用户问题与诉求", t2), (toL "问题分析", t3),
           (toL "权威解释", t4)] []) =
        .ok (p ++ joinBlocks
          [(toL "用户主诉", t1), (toL "用户问题与诉求", t2), (toL "问题分析", t3)] [], t4) :=
      unpack2_peel (toL "权威解释") [(toL "用户主诉", t1), (toL "用户问题与诉求", t2),
          (toL "问题分析", t3)] p t4 hpS cond4 h4S
    have hu3 : ReportGenerator.unpack2 (toL " 问题分析")
        (p ++ joinBlocks
          [(toL "用户主诉", t1), (toL "用户问题与诉求", t2), (toL "问题分析", t3)] []) =
        .ok (p ++ joinBlocks [(toL "用户主诉", t1), (toL "用户问题与诉求", t2)] [], t3) :=
      unpack2_peel (toL "问题分析") [(toL "用户主诉", t1), (toL "用户问题与诉求", t2)]
        p t3 hpS cond3 h3S
    have hu2 : ReportGenerator.unpack2 (toL " 用户问题与诉求")
        (p ++ joinBlocks [(toL "用户主诉", t1), (toL "用户问题与诉求", t2)] []) =
        .ok (p ++ joinBlocks [(toL "用户主诉", t1)] [], t2) :=
      unpack2_peel (toL "用户问题与诉求") [(toL "用户主诉", t1)] p t2 hpS cond2 h2S
    have hu1 : ReportGenerator.unpack2 (toL " 用户主诉")
        (p ++ joinBlocks [(toL "用户主诉", t1)] []) = .ok (p, t1) :=
      unpack2_last (toL "用户主诉") p t1 hpS h1S
    rw [ReportGenerator.splitSections, hrepl, hu6]
    simp only [pybind_ok]
    rw [hu5]
    simp only [pybind_ok]
    rw [hu4]
    simp only [pybind_ok]
    rw [hu3]
    simp only [pybind_ok]
    rw [hu2]
    simp only [pybind_ok]
    rw [hu1]
    simp only [pybind_ok]
    rfl

theorem report_split_missing_and_order_witness :
    ReportGenerator.splitSections (toL "这份回复没有结语分隔符") =
      .error (.valueError (toL "not enough values to unpack (expected 2, got 1)")) ∧
    ReportGenerator.splitSections
        ([] ++ (toL " 用户主诉" ++ (toL "一" ++ (toL " 用户问题与诉求" ++ (toL "二" ++
          (toL " 问题分析" ++ (toL "三" ++ (toL " 权威解释" ++ (toL "四" ++
          (toL " 结语" ++ toL "六")))))))))) =
      .error (.valueError (toL "not enough values to unpack (expected 2, got 1)")) ∧
    ReportGenerator.splitSections
        ([] ++ (toL " 用户主诉" ++ (toL "一" ++ (toL " 用户问题与诉求" ++ (toL "二" ++
          (toL " 问题分析" ++ (toL "三" ++ (toL " 权威解释" ++ (toL "四" ++
          (toL " 解决方案" ++ (toL "五" ++ (toL " 结语" ++ toL "六")))))))))))) =
      .ok ⟨toL "一", toL "二", toL "三", toL "四", toL "五", toL "六"⟩ := by
  have h := report_split_missing_and_order (toL "这份回复没有结语分隔符") [] (toL "一") (toL "二")
    (toL "三") (toL "四") (toL "五") (toL "六") (by decide) (by decide) (by decide)
    (by decide) (by decide) (by decide) (by decide) (by decide)
  exact ⟨h.1, h.2.2.2.2.2.1, h.2.2.2.2.2.2.2⟩
